import Mathlib

/-!
Logitech Flight System G940 force feedback (`drivers/hid/hid-lg3ff.c`)

A shallow embedding of the report encoder of the G940 force-feedback driver:
the packed per-axis register image, the condition encoders
`hid_lg3ff_set_cond` / `hid_lg3ff_clear_cond`, the command dispatcher
`hid_lg3ff_play`, `hid_lg3ff_set_autocenter`, and the transport helper
`hig_lg3ff_send`.

Conventions of the embedding.

* Machine integers are `Int` (signed) or `Nat` (unsigned).  Every implicit C
  narrowing conversion is written out: `s8_of_int` and `s16_of_int` reduce an
  `int` modulo `2^8` / `2^16` into the signed range.
* A field of type `lg3_s16` holds its logical signed 16-bit value; the
  little-endian byte order appears where the report is viewed as bytes
  (`le16_bytes`).
* `u8 _padding1[8]` and friends are functions on `Fin 8`, so an array always
  has exactly its declared number of elements.
* The device is passed explicitly: `hid_device` carries the value slots of
  the output report and the log of submitted `SET_REPORT` requests.
-/

namespace Lg3ff

/-! ## Machine integers -/

/-- Conversion of a C `int` to `s8`: reduction modulo `2^8` into `[-128, 127]`. -/
def s8_of_int (v : Int) : Int := (v + 128) % 256 - 128

/-- Conversion of a C `int` to `s16`: reduction modulo `2^16` into
`[-32768, 32767]`. -/
def s16_of_int (v : Int) : Int := (v + 32768) % 65536 - 32768

/-- Source: `lg3ff_cpu_to_sle16(s16 val)`.  The argument is converted to `s16`
at the call; `cpu_to_le16` only fixes the byte order of the stored field, so
the logical value of the result is the `s16` itself. -/
def lg3ff_cpu_to_sle16 (val : Int) : Int := s16_of_int val

/-- The two bytes of a signed 16-bit field as seen through `(u8 *)`: low-order
byte first. -/
def le16_bytes (v : Int) : List Nat :=
  [(v % 256).toNat, ((v / 256) % 256).toNat]

/-- The byte of a signed 8-bit field as seen through `(u8 *)`. -/
def s8_byte (v : Int) : Nat := (v % 256).toNat

/-! ## Constants of the input layer -/

/-- Modelled from the spec: the effect-type code of a spring condition effect.
The code is declared in `linux/input.h`, which is not part of the sources at
hand; it is a 16-bit code distinct from that of the damper. -/
def FF_SPRING : Nat := 0x53

/-- Modelled from the spec: the effect-type code of a damper condition effect,
declared in `linux/input.h`. -/
def FF_DAMPER : Nat := 0x55

/-- Modelled from the spec: the errno of the invalid-argument failure; `play`
returns its negation. -/
def EINVAL : Int := 22

/-- Source: `#define FF_REPORT_ID 2`. -/
def FF_REPORT_ID : Nat := 2

/-! ## Data model -/

/-- Source: `struct hid_lg3ff_axis` (packed).  Signed fields are `Int`,
`u8` fields are `Nat`, `u8` arrays are functions on `Fin n`. -/
structure hid_lg3ff_axis where
  constant_force : Int
  _padding0 : Nat
  autocenter_strength : Int
  autocenter_force : Int
  autocenter_damping : Int
  spring_deadzone_neg : Int
  spring_deadzone_pos : Int
  spring_coeff_neg : Int
  spring_coeff_pos : Int
  spring_saturation : Int
  _padding1 : Fin 8 → Nat
  damper_coeff_neg : Int
  damper_coeff_pos : Int
  damper_saturation : Int
  _padding2 : Fin 4 → Nat

/-- Source: `struct hid_lg3ff_report` (packed). -/
structure hid_lg3ff_report where
  x : hid_lg3ff_axis
  y : hid_lg3ff_axis
  _padding : Fin 3 → Nat

/-- An axis whose every byte is zero. -/
def hid_lg3ff_axis.zero : hid_lg3ff_axis :=
  { constant_force := 0, _padding0 := 0, autocenter_strength := 0,
    autocenter_force := 0, autocenter_damping := 0, spring_deadzone_neg := 0,
    spring_deadzone_pos := 0, spring_coeff_neg := 0, spring_coeff_pos := 0,
    spring_saturation := 0, _padding1 := fun _ => 0, damper_coeff_neg := 0,
    damper_coeff_pos := 0, damper_saturation := 0, _padding2 := fun _ => 0 }

/-- Source: the initialiser `struct hid_lg3ff_report report = {{0}};`, which
zeroes the whole object. -/
def hid_lg3ff_report.zero : hid_lg3ff_report :=
  { x := hid_lg3ff_axis.zero, y := hid_lg3ff_axis.zero, _padding := fun _ => 0 }

/-- Modelled from the spec: `struct ff_condition_effect` of `linux/input.h`.
Saturations and deadband are unsigned 16-bit, coefficients and center are
signed 16-bit. -/
structure ff_condition_effect where
  right_saturation : Nat
  left_saturation : Nat
  right_coeff : Int
  left_coeff : Int
  deadband : Nat
  center : Int

/-- The fields of a condition lie in the ranges of their C types. -/
def ff_condition_effect.WF (c : ff_condition_effect) : Prop :=
  c.right_saturation ≤ 65535 ∧ c.left_saturation ≤ 65535 ∧
  (-32768 ≤ c.right_coeff ∧ c.right_coeff ≤ 32767) ∧
  (-32768 ≤ c.left_coeff ∧ c.left_coeff ≤ 32767) ∧
  c.deadband ≤ 65535 ∧
  (-32768 ≤ c.center ∧ c.center ≤ 32767)

instance (c : ff_condition_effect) : Decidable c.WF :=
  inferInstanceAs (Decidable (_ ∧ _))

/-- Modelled from the spec: the part of `struct ff_effect` the driver reads,
namely the effect type and the two per-axis conditions `u.condition[0]` and
`u.condition[1]`. -/
structure ff_effect where
  type : Nat
  condition : Fin 2 → ff_condition_effect

/-- Modelled from the spec: `enum mlnx_commands` of `ff-memless-next.h`.  The
five documented kinds, and `MLNX_OTHER` standing for any value of the `enum`
object that is none of them. -/
inductive mlnx_commands where
  | MLNX_START_COMBINED
  | MLNX_STOP_COMBINED
  | MLNX_START_UNCOMB
  | MLNX_STOP_UNCOMB
  | MLNX_UPLOAD_UNCOMB
  | MLNX_OTHER (raw : Int)
deriving DecidableEq

/-- Modelled from the spec: `struct mlnx_simple_force`, two signed 32-bit
force components. -/
structure mlnx_simple_force where
  x : Int
  y : Int

/-- Modelled from the spec: `struct mlnx_uncomb_effect`. -/
structure mlnx_uncomb_effect where
  id : Int
  effect : ff_effect

/-- Modelled from the spec: the union `u` of `struct mlnx_effect_command`;
both views are kept, the dispatcher reads the one selected by `cmd`. -/
structure mlnx_effect_command_u where
  simple_force : mlnx_simple_force
  uncomb : mlnx_uncomb_effect

/-- Modelled from the spec: `struct mlnx_effect_command`. -/
structure mlnx_effect_command where
  cmd : mlnx_commands
  u : mlnx_effect_command_u

/-! ## The report as bytes -/

/-- The byte of a `u8` field. -/
def u8_byte (v : Nat) : Nat := v % 256

/-- The packed image of one axis, `(u8 *)axis`, in declaration order. -/
def hid_lg3ff_axis.bytes (a : hid_lg3ff_axis) : List Nat :=
  le16_bytes a.constant_force ++
  [u8_byte a._padding0, s8_byte a.autocenter_strength,
   s8_byte a.autocenter_force, s8_byte a.autocenter_damping] ++
  le16_bytes a.spring_deadzone_neg ++ le16_bytes a.spring_deadzone_pos ++
  [s8_byte a.spring_coeff_neg, s8_byte a.spring_coeff_pos] ++
  le16_bytes a.spring_saturation ++
  [u8_byte (a._padding1 0), u8_byte (a._padding1 1), u8_byte (a._padding1 2),
   u8_byte (a._padding1 3), u8_byte (a._padding1 4), u8_byte (a._padding1 5),
   u8_byte (a._padding1 6), u8_byte (a._padding1 7)] ++
  [s8_byte a.damper_coeff_neg, s8_byte a.damper_coeff_pos] ++
  le16_bytes a.damper_saturation ++
  [u8_byte (a._padding2 0), u8_byte (a._padding2 1), u8_byte (a._padding2 2),
   u8_byte (a._padding2 3)]

/-- The packed image of the report, `(u8 *)raw_rep`: axis `x`, axis `y`, then
the three trailing bytes. -/
def hid_lg3ff_report.bytes (r : hid_lg3ff_report) : List Nat :=
  r.x.bytes ++ r.y.bytes ++
  [u8_byte (r._padding 0), u8_byte (r._padding 1), u8_byte (r._padding 2)]

/-- Source: `sizeof(struct hid_lg3ff_axis)` for the packed layout. -/
def sizeof_hid_lg3ff_axis : Nat := 2 + 1 + 1 + 1 + 1 + 2 + 2 + 1 + 1 + 2 + 8 + 1 + 1 + 2 + 4

/-- Source: `sizeof(struct hid_lg3ff_report)`; the driver asserts it to be 63
(`BUILD_BUG_ON`). -/
def sizeof_hid_lg3ff_report : Nat := sizeof_hid_lg3ff_axis + sizeof_hid_lg3ff_axis + 3

/-- Every field of the axis lies in the range of its C type: `lg3_s16` fields
in `[-32768, 32767]`, `s8` fields in `[-128, 127]`, `u8` bytes below 256. -/
def hid_lg3ff_axis.WF (a : hid_lg3ff_axis) : Prop :=
  (-32768 ≤ a.constant_force ∧ a.constant_force ≤ 32767) ∧
  a._padding0 < 256 ∧
  (-128 ≤ a.autocenter_strength ∧ a.autocenter_strength ≤ 127) ∧
  (-128 ≤ a.autocenter_force ∧ a.autocenter_force ≤ 127) ∧
  (-128 ≤ a.autocenter_damping ∧ a.autocenter_damping ≤ 127) ∧
  (-32768 ≤ a.spring_deadzone_neg ∧ a.spring_deadzone_neg ≤ 32767) ∧
  (-32768 ≤ a.spring_deadzone_pos ∧ a.spring_deadzone_pos ≤ 32767) ∧
  (-128 ≤ a.spring_coeff_neg ∧ a.spring_coeff_neg ≤ 127) ∧
  (-128 ≤ a.spring_coeff_pos ∧ a.spring_coeff_pos ≤ 127) ∧
  (-32768 ≤ a.spring_saturation ∧ a.spring_saturation ≤ 32767) ∧
  (∀ i, a._padding1 i < 256) ∧
  (-128 ≤ a.damper_coeff_neg ∧ a.damper_coeff_neg ≤ 127) ∧
  (-128 ≤ a.damper_coeff_pos ∧ a.damper_coeff_pos ≤ 127) ∧
  (-32768 ≤ a.damper_saturation ∧ a.damper_saturation ≤ 32767) ∧
  (∀ i, a._padding2 i < 256)

instance (a : hid_lg3ff_axis) : Decidable a.WF :=
  inferInstanceAs (Decidable (_ ∧ _))

/-- Both axes and the trailing bytes of the report lie in their C ranges. -/
def hid_lg3ff_report.WF (r : hid_lg3ff_report) : Prop :=
  r.x.WF ∧ r.y.WF ∧ ∀ i, r._padding i < 256

instance (r : hid_lg3ff_report) : Decidable r.WF :=
  inferInstanceAs (Decidable (_ ∧ _))

/-! ## Reading the wire format

The decoder of the documented layout: it reads the 63 bytes field by field at
the offsets of the packed structure.  It is the specification side of the
round trip; the driver itself only encodes. -/

/-- The signed 16-bit value of two consecutive wire bytes, low-order byte
first. -/
def s16_of_le_bytes (lo hi : Nat) : Int := s16_of_int ((lo : Int) + 256 * (hi : Int))

/-- The signed 8-bit value of one wire byte. -/
def s8_of_byte (b : Nat) : Int := s8_of_int (b : Int)

/-- One axis read from 30 wire bytes: signed 16-bit fields at offsets 0, 6, 8,
12, 24, signed 8-bit fields at offsets 3, 4, 5, 10, 11, 22, 23, reserved bytes
at 2, 14..21 and 26..29. -/
def hid_lg3ff_axis.decode (b : List Nat) : hid_lg3ff_axis :=
  { constant_force := s16_of_le_bytes (b.getD 0 0) (b.getD 1 0)
    _padding0 := b.getD 2 0
    autocenter_strength := s8_of_byte (b.getD 3 0)
    autocenter_force := s8_of_byte (b.getD 4 0)
    autocenter_damping := s8_of_byte (b.getD 5 0)
    spring_deadzone_neg := s16_of_le_bytes (b.getD 6 0) (b.getD 7 0)
    spring_deadzone_pos := s16_of_le_bytes (b.getD 8 0) (b.getD 9 0)
    spring_coeff_neg := s8_of_byte (b.getD 10 0)
    spring_coeff_pos := s8_of_byte (b.getD 11 0)
    spring_saturation := s16_of_le_bytes (b.getD 12 0) (b.getD 13 0)
    _padding1 := fun i => b.getD (14 + i.val) 0
    damper_coeff_neg := s8_of_byte (b.getD 22 0)
    damper_coeff_pos := s8_of_byte (b.getD 23 0)
    damper_saturation := s16_of_le_bytes (b.getD 24 0) (b.getD 25 0)
    _padding2 := fun i => b.getD (26 + i.val) 0 }

/-- The report read from 63 wire bytes: axis X from bytes 0..29, axis Y from
bytes 30..59, the trailing bytes from 60..62. -/
def hid_lg3ff_report.decode (b : List Nat) : hid_lg3ff_report :=
  { x := hid_lg3ff_axis.decode b
    y := hid_lg3ff_axis.decode (b.drop 30)
    _padding := fun i => b.getD (60 + i.val) 0 }

/-- The unsigned 16-bit pattern of a signed value: its residue modulo `2^16`. -/
def u16_pattern (v : Int) : Nat := (v % 65536).toNat

/-- The unsigned 8-bit pattern of a signed value: its residue modulo `2^8`. -/
def u8_pattern (v : Int) : Nat := (v % 256).toNat

/-- The documented little-endian layout of the named fields of axis `a` inside
the byte list `b`, the axis starting at offset `base`: every signed 16-bit
field has the low-order byte of its pattern at its offset and the high-order
byte right after it, every signed 8-bit field has its pattern at its offset. -/
def hid_lg3ff_axis.laid_out_at (a : hid_lg3ff_axis) (b : List Nat) (base : Nat) : Prop :=
  (b.getD (base + 0) 0 = u16_pattern a.constant_force % 256 ∧
    b.getD (base + 1) 0 = u16_pattern a.constant_force / 256) ∧
  b.getD (base + 3) 0 = u8_pattern a.autocenter_strength ∧
  b.getD (base + 4) 0 = u8_pattern a.autocenter_force ∧
  b.getD (base + 5) 0 = u8_pattern a.autocenter_damping ∧
  (b.getD (base + 6) 0 = u16_pattern a.spring_deadzone_neg % 256 ∧
    b.getD (base + 7) 0 = u16_pattern a.spring_deadzone_neg / 256) ∧
  (b.getD (base + 8) 0 = u16_pattern a.spring_deadzone_pos % 256 ∧
    b.getD (base + 9) 0 = u16_pattern a.spring_deadzone_pos / 256) ∧
  b.getD (base + 10) 0 = u8_pattern a.spring_coeff_neg ∧
  b.getD (base + 11) 0 = u8_pattern a.spring_coeff_pos ∧
  (b.getD (base + 12) 0 = u16_pattern a.spring_saturation % 256 ∧
    b.getD (base + 13) 0 = u16_pattern a.spring_saturation / 256) ∧
  b.getD (base + 22) 0 = u8_pattern a.damper_coeff_neg ∧
  b.getD (base + 23) 0 = u8_pattern a.damper_coeff_pos ∧
  (b.getD (base + 24) 0 = u16_pattern a.damper_saturation % 256 ∧
    b.getD (base + 25) 0 = u16_pattern a.damper_saturation / 256)

/-- The reserved bytes of the axis and its `autocenter_damping` are zero. -/
def hid_lg3ff_axis.reserved_zero (a : hid_lg3ff_axis) : Prop :=
  a._padding0 = 0 ∧ a.autocenter_damping = 0 ∧
  (∀ i, a._padding1 i = 0) ∧ (∀ i, a._padding2 i = 0)

/-- The reserved bytes and `autocenter_damping` of both axes and the three
trailing bytes of the report are zero. -/
def hid_lg3ff_report.reserved_zero (r : hid_lg3ff_report) : Prop :=
  r.x.reserved_zero ∧ r.y.reserved_zero ∧ ∀ i, r._padding i = 0

/-- Offsets, within the 63 wire bytes, of the reserved bytes (`_padding0`,
`_padding1[0..7]`, `_padding2[0..3]` of both axes and the three trailing
bytes) and of `autocenter_damping` (5 and 35). -/
def reserved_offsets : List Nat :=
  [2, 5, 14, 15, 16, 17, 18, 19, 20, 21, 26, 27, 28, 29,
   32, 35, 44, 45, 46, 47, 48, 49, 50, 51, 56, 57, 58, 59,
   60, 61, 62]

/-! ## Transport -/

/-- The device as the driver sees it: `value` are the slots
`hid_rep->field[0]->value[]` of the output report `FF_REPORT_ID`, and
`requests` logs, oldest first, the slot contents of every report handed to
`hid_hw_request(hid, hid_rep, HID_REQ_SET_REPORT)`. -/
structure hid_device where
  value : List Int
  requests : List (List Int)

/-- Source: `hig_lg3ff_send`.  The loop stores byte `i` of the raw report in
value slot `i` for `i < sizeof(*raw_rep)`, then the report is submitted. -/
def hig_lg3ff_send (hid : hid_device) (raw_rep : hid_lg3ff_report) : hid_device :=
  let value := (List.range sizeof_hid_lg3ff_report).foldl
    (fun v i => v.set i ((raw_rep.bytes.getD i 0 : Nat) : Int)) hid.value
  { value := value, requests := hid.requests ++ [value] }

/-! ## Axis encoder -/

/-- Source: `hid_lg3ff_clear_cond`.  The axis is returned instead of being
updated in place. -/
def hid_lg3ff_clear_cond (axis : hid_lg3ff_axis) (effect_type : Nat) : hid_lg3ff_axis :=
  if effect_type = FF_SPRING then
    { axis with
      spring_deadzone_neg := 0
      spring_deadzone_pos := 0
      spring_coeff_neg := 0
      spring_coeff_pos := 0
      spring_saturation := 0 }
  else if effect_type = FF_DAMPER then
    { axis with
      damper_coeff_neg := 0
      damper_coeff_pos := 0
      damper_saturation := 0 }
  else axis

/-- Source: `hid_lg3ff_set_cond`.  Operands are promoted to `int`; `/` on the
unsigned operands is truncating division of a non-negative value, `>>` on the
signed coefficients is the arithmetic shift; stores into `s8` fields and the
`s16` parameter of `lg3ff_cpu_to_sle16` narrow. -/
def hid_lg3ff_set_cond (axis : hid_lg3ff_axis) (effect_type : Nat)
    (condition : ff_condition_effect) : hid_lg3ff_axis :=
  if effect_type = FF_SPRING then
    { axis with
      spring_deadzone_neg :=
        lg3ff_cpu_to_sle16 (condition.center - ((condition.deadband / 2 : Nat) : Int))
      spring_deadzone_pos :=
        lg3ff_cpu_to_sle16 (condition.center + ((condition.deadband / 2 : Nat) : Int))
      spring_coeff_neg := s8_of_int (condition.left_coeff >>> (8 : Nat))
      spring_coeff_pos := s8_of_int (condition.right_coeff >>> (8 : Nat))
      spring_saturation :=
        lg3ff_cpu_to_sle16
          (((condition.left_saturation + condition.right_saturation) / 4 : Nat) : Int) }
  else if effect_type = FF_DAMPER then
    { axis with
      damper_coeff_neg := s8_of_int (condition.left_coeff >>> (8 : Nat))
      damper_coeff_pos := s8_of_int (condition.right_coeff >>> (8 : Nat))
      damper_saturation :=
        lg3ff_cpu_to_sle16
          (((condition.left_saturation + condition.right_saturation) / 4 : Nat) : Int) }
  else axis

/-! ## Command dispatcher -/

/-- Source: `hid_lg3ff_play`.  Returns the `int` result together with the
device after the call; the unused `data` argument is dropped. -/
def hid_lg3ff_play (dev : hid_device) (command : mlnx_effect_command) : Int × hid_device :=
  let report := hid_lg3ff_report.zero
  match command.cmd with
  | .MLNX_START_COMBINED =>
    let report := { report with
      x := { report.x with constant_force := lg3ff_cpu_to_sle16 command.u.simple_force.x } }
    let report := { report with
      y := { report.y with constant_force := lg3ff_cpu_to_sle16 command.u.simple_force.y } }
    (0, hig_lg3ff_send dev report)
  | .MLNX_STOP_COMBINED =>
    let report := { report with x := { report.x with constant_force := 0 } }
    let report := { report with y := { report.y with constant_force := 0 } }
    (0, hig_lg3ff_send dev report)
  | .MLNX_UPLOAD_UNCOMB =>
    if command.u.uncomb.effect.type = FF_SPRING ∨ command.u.uncomb.effect.type = FF_DAMPER then
      (0, dev)
    else
      (-EINVAL, dev)
  | .MLNX_START_UNCOMB =>
    let report := { report with
      x := hid_lg3ff_set_cond report.x command.u.uncomb.effect.type
             (command.u.uncomb.effect.condition 0) }
    let report := { report with
      y := hid_lg3ff_set_cond report.y command.u.uncomb.effect.type
             (command.u.uncomb.effect.condition 1) }
    (0, hig_lg3ff_send dev report)
  | .MLNX_STOP_UNCOMB =>
    let report := { report with
      x := hid_lg3ff_clear_cond report.x command.u.uncomb.effect.type }
    let report := { report with
      y := hid_lg3ff_clear_cond report.y command.u.uncomb.effect.type }
    (0, hig_lg3ff_send dev report)
  | .MLNX_OTHER _ => (-EINVAL, dev)

/-- Source: `hid_lg3ff_set_autocenter`.  `magnitude` is a `u16`; the shifted
value is narrowed to `s8`. -/
def hid_lg3ff_set_autocenter (dev : hid_device) (magnitude : Nat) : hid_device :=
  let report := hid_lg3ff_report.zero
  let mag_scaled := s8_of_int ((magnitude >>> 9 : Nat) : Int)
  let report := { report with x := { report.x with autocenter_strength := 127 } }
  let report := { report with x := { report.x with autocenter_force := mag_scaled } }
  let report := { report with y := { report.y with autocenter_strength := 127 } }
  let report := { report with y := { report.y with autocenter_force := mag_scaled } }
  hig_lg3ff_send dev report

/-! ## Entry points registered by `lg3ff_init` -/

/-- The two callbacks `lg3ff_init` hands to the input layer: the play callback
given to `input_ff_create_mlnx` and `dev->ff->set_autocenter`. -/
inductive driver_call where
  | play (command : mlnx_effect_command)
  | set_autocenter (magnitude : Nat)

/-- The device after one callback. -/
def driver_call.run (dev : hid_device) : driver_call → hid_device
  | .play command => (hid_lg3ff_play dev command).2
  | .set_autocenter magnitude => hid_lg3ff_set_autocenter dev magnitude

/-- The device after a sequence of callbacks, in order. -/
def run_calls (dev : hid_device) (calls : List driver_call) : hid_device :=
  calls.foldl driver_call.run dev

/-! ## Sample inputs -/

/-- The spring condition of the driver documentation: `center = 1000`,
`deadband = 200`, `left_coeff = 2560`, `right_coeff = 3072`,
`left_saturation = 400`, `right_saturation = 800`. -/
def sample_condition : ff_condition_effect :=
  { right_saturation := 800, left_saturation := 400, right_coeff := 3072,
    left_coeff := 2560, deadband := 200, center := 1000 }

/-- A condition at the upper end of the input ranges: `center = 32767`,
`deadband = 65535`. -/
def extreme_condition : ff_condition_effect :=
  { right_saturation := 65535, left_saturation := 65535, right_coeff := 32767,
    left_coeff := -32768, deadband := 65535, center := 32767 }

/-- A device whose output report has 63 value slots and an empty request log. -/
def sample_device : hid_device :=
  { value := List.replicate 63 0, requests := [] }

/-- An effect of the given type carrying `sample_condition` for the X axis and
`extreme_condition` for the Y axis. -/
def sample_effect (type : Nat) : ff_effect :=
  { type := type, condition := fun i => if i = 0 then sample_condition else extreme_condition }

/-- A command of the given kind with force components `(-300, 12345)` and an
effect of the given type. -/
def sample_command (cmd : mlnx_commands) (type : Nat) : mlnx_effect_command :=
  { cmd := cmd,
    u := { simple_force := { x := -300, y := 12345 },
           uncomb := { id := 0, effect := sample_effect type } } }

/-- Modelled from the spec: the effect-type code of a constant-force effect
(`linux/input.h`), an effect type that is neither Spring nor Damper. -/
def FF_CONSTANT : Nat := 0x52

/-- A condition at the lower end of the center range: `center = -32768`,
`deadband = 65535`. -/
def low_extreme_condition : ff_condition_effect :=
  { right_saturation := 0, left_saturation := 0, right_coeff := -1,
    left_coeff := -256, deadband := 65535, center := -32768 }

/-- A StartCombinedForce command whose force components `(32768, 40000)` are
32-bit values outside the signed 16-bit range. -/
def overflow_command : mlnx_effect_command :=
  { cmd := mlnx_commands.MLNX_START_COMBINED,
    u := { simple_force := { x := 32768, y := 40000 },
           uncomb := { id := 0, effect := sample_effect FF_CONSTANT } } }

/-- An axis with distinct values in every field, all within their C ranges. -/
def sample_axis : hid_lg3ff_axis :=
  { constant_force := 0x1234, _padding0 := 1, autocenter_strength := 127,
    autocenter_force := -2, autocenter_damping := 3, spring_deadzone_neg := -900,
    spring_deadzone_pos := 1100, spring_coeff_neg := -10, spring_coeff_pos := 12,
    spring_saturation := 300, _padding1 := fun i => 10 + i.val,
    damper_coeff_neg := -128, damper_coeff_pos := 20, damper_saturation := -32768,
    _padding2 := fun i => 250 + i.val }

/-- A report with `constant_force = 0x1234` on X (`sample_axis`), an all-zero
Y axis and trailing bytes 7, 8, 9. -/
def sample_report : hid_lg3ff_report :=
  { x := sample_axis, y := hid_lg3ff_axis.zero, _padding := fun i => 7 + i.val }

/-! ## Arithmetic of the narrowing conversions -/

theorem s16_of_int_eq_self (v : Int) (h1 : -32768 ≤ v) (h2 : v ≤ 32767) :
    s16_of_int v = v := by
  unfold s16_of_int; omega

theorem s8_of_int_eq_self (v : Int) (h1 : -128 ≤ v) (h2 : v ≤ 127) :
    s8_of_int v = v := by
  unfold s8_of_int; omega

theorem int_shiftRight_8 (v : Int) : v >>> (8 : Nat) = v / 256 := by
  rw [Int.shiftRight_eq_div_pow]; norm_num

theorem floor_div_256 (v : Int) : ⌊(v : ℚ) / 256⌋ = v / 256 := by
  have h := Rat.floor_intCast_div_natCast v 256
  simpa using h

theorem coeff_narrow (v : Int) (h1 : -32768 ≤ v) (h2 : v ≤ 32767) :
    s8_of_int (v >>> (8 : Nat)) = v / 256 := by
  rw [int_shiftRight_8]
  exact s8_of_int_eq_self _ (by omega) (by omega)

theorem saturation_narrow (l r : Nat) (hl : l ≤ 65535) (hr : r ≤ 65535) :
    lg3ff_cpu_to_sle16 (((l + r) / 4 : Nat) : Int) = (((l + r) / 4 : Nat) : Int) := by
  unfold lg3ff_cpu_to_sle16
  exact s16_of_int_eq_self _ (by omega) (by omega)

/-! ## Spring encoding -/

/-- C1: for every axis and every condition whose fields lie in their C ranges,
`hid_lg3ff_set_cond` with type Spring stores
`spring_coeff_neg = floor(left_coeff / 256)`,
`spring_coeff_pos = floor(right_coeff / 256)` and
`spring_saturation = (left_saturation + right_saturation) / 4`; the
coefficients lie in `[-128, 127]`, a negative coefficient stays negative, and
the saturation lies in `[0, 32767]`, so no narrowing changes a value. -/
theorem set_cond_spring_coeff_saturation (a : hid_lg3ff_axis) (c : ff_condition_effect)
    (h : c.WF) :
    (hid_lg3ff_set_cond a FF_SPRING c).spring_coeff_neg = ⌊(c.left_coeff : ℚ) / 256⌋ ∧
    (hid_lg3ff_set_cond a FF_SPRING c).spring_coeff_pos = ⌊(c.right_coeff : ℚ) / 256⌋ ∧
    (hid_lg3ff_set_cond a FF_SPRING c).spring_saturation
      = (((c.left_saturation + c.right_saturation) / 4 : Nat) : Int) ∧
    (-128 ≤ (hid_lg3ff_set_cond a FF_SPRING c).spring_coeff_neg ∧
      (hid_lg3ff_set_cond a FF_SPRING c).spring_coeff_neg ≤ 127) ∧
    (-128 ≤ (hid_lg3ff_set_cond a FF_SPRING c).spring_coeff_pos ∧
      (hid_lg3ff_set_cond a FF_SPRING c).spring_coeff_pos ≤ 127) ∧
    (c.left_coeff < 0 → (hid_lg3ff_set_cond a FF_SPRING c).spring_coeff_neg < 0) ∧
    (c.right_coeff < 0 → (hid_lg3ff_set_cond a FF_SPRING c).spring_coeff_pos < 0) ∧
    (0 ≤ (hid_lg3ff_set_cond a FF_SPRING c).spring_saturation ∧
      (hid_lg3ff_set_cond a FF_SPRING c).spring_saturation ≤ 32767) := by
  obtain ⟨hrs, hls, ⟨hr1, hr2⟩, ⟨hl1, hl2⟩, _, _⟩ := h
  have e1 : (hid_lg3ff_set_cond a FF_SPRING c).spring_coeff_neg = c.left_coeff / 256 := by
    simp only [hid_lg3ff_set_cond, if_true]
    exact coeff_narrow _ hl1 hl2
  have e2 : (hid_lg3ff_set_cond a FF_SPRING c).spring_coeff_pos = c.right_coeff / 256 := by
    simp only [hid_lg3ff_set_cond, if_true]
    exact coeff_narrow _ hr1 hr2
  have e3 : (hid_lg3ff_set_cond a FF_SPRING c).spring_saturation
      = (((c.left_saturation + c.right_saturation) / 4 : Nat) : Int) := by
    simp only [hid_lg3ff_set_cond, if_true]
    exact saturation_narrow _ _ hls hrs
  rw [floor_div_256, floor_div_256, e1, e2, e3]
  refine ⟨rfl, rfl, rfl, ⟨?_, ?_⟩, ⟨?_, ?_⟩, ?_, ?_, ?_, ?_⟩ <;> omega

/-- C1, at the documented sample: the stored values are 10, 12 and 300. -/
theorem set_cond_spring_coeff_saturation_witness :
    sample_condition.WF ∧
    (hid_lg3ff_set_cond hid_lg3ff_axis.zero FF_SPRING sample_condition).spring_coeff_neg = 10 ∧
    (hid_lg3ff_set_cond hid_lg3ff_axis.zero FF_SPRING sample_condition).spring_coeff_pos = 12 ∧
    (hid_lg3ff_set_cond hid_lg3ff_axis.zero FF_SPRING sample_condition).spring_saturation = 300 := by
  have hwf : sample_condition.WF := by decide
  have h := set_cond_spring_coeff_saturation hid_lg3ff_axis.zero sample_condition hwf
  refine ⟨hwf, ?_, ?_, ?_⟩
  · rw [h.1, floor_div_256]; decide
  · rw [h.2.1, floor_div_256]; decide
  · rw [h.2.2.1]; decide

/-- C2, refuted as stated: with `center = 32767` and `deadband = 65535` (both
within their C ranges) the exact sum `center + deadband/2` is 65534, which the
16-bit field cannot hold; the code stores -2, which is neither the exact sum
nor an upper bound of the center. -/
theorem set_cond_spring_deadzone_overflow :
    extreme_condition.WF ∧
    (hid_lg3ff_set_cond hid_lg3ff_axis.zero FF_SPRING extreme_condition).spring_deadzone_pos = -2 ∧
    (hid_lg3ff_set_cond hid_lg3ff_axis.zero FF_SPRING extreme_condition).spring_deadzone_pos
      ≠ extreme_condition.center + ((extreme_condition.deadband / 2 : Nat) : Int) ∧
    ¬ (extreme_condition.center
        ≤ (hid_lg3ff_set_cond hid_lg3ff_axis.zero FF_SPRING extreme_condition).spring_deadzone_pos) := by
  decide

/-- C2, amended: for every axis and every Spring condition in its C ranges
whose exact bounds `center - deadband/2` and `center + deadband/2`
(`deadband/2` rounded down) fit the signed 16-bit range, the stored
`spring_deadzone_neg` and `spring_deadzone_pos` are exactly these integers,
and they bound the center. -/
theorem set_cond_spring_deadzone_in_range (a : hid_lg3ff_axis) (c : ff_condition_effect)
    (h : c.WF)
    (hlo : -32768 ≤ c.center - ((c.deadband / 2 : Nat) : Int))
    (hhi : c.center + ((c.deadband / 2 : Nat) : Int) ≤ 32767) :
    (hid_lg3ff_set_cond a FF_SPRING c).spring_deadzone_neg
      = c.center - ((c.deadband / 2 : Nat) : Int) ∧
    (hid_lg3ff_set_cond a FF_SPRING c).spring_deadzone_pos
      = c.center + ((c.deadband / 2 : Nat) : Int) ∧
    (hid_lg3ff_set_cond a FF_SPRING c).spring_deadzone_neg ≤ c.center ∧
    c.center ≤ (hid_lg3ff_set_cond a FF_SPRING c).spring_deadzone_pos := by
  obtain ⟨_, _, _, _, _, hc1, hc2⟩ := h
  have e1 : (hid_lg3ff_set_cond a FF_SPRING c).spring_deadzone_neg
      = c.center - ((c.deadband / 2 : Nat) : Int) := by
    simp only [hid_lg3ff_set_cond, if_true, lg3ff_cpu_to_sle16]
    exact s16_of_int_eq_self _ hlo (by omega)
  have e2 : (hid_lg3ff_set_cond a FF_SPRING c).spring_deadzone_pos
      = c.center + ((c.deadband / 2 : Nat) : Int) := by
    simp only [hid_lg3ff_set_cond, if_true, lg3ff_cpu_to_sle16]
    exact s16_of_int_eq_self _ (by omega) hhi
  rw [e1, e2]
  refine ⟨rfl, rfl, ?_, ?_⟩ <;> omega

/-- C2 amended, at the documented sample: `center = 1000`, `deadband = 200`
give 900 and 1100. -/
theorem set_cond_spring_deadzone_in_range_witness :
    sample_condition.WF ∧
    (hid_lg3ff_set_cond hid_lg3ff_axis.zero FF_SPRING sample_condition).spring_deadzone_neg = 900 ∧
    (hid_lg3ff_set_cond hid_lg3ff_axis.zero FF_SPRING sample_condition).spring_deadzone_pos = 1100 := by
  have hwf : sample_condition.WF := by decide
  have h := set_cond_spring_deadzone_in_range hid_lg3ff_axis.zero sample_condition hwf
    (by decide) (by decide)
  refine ⟨hwf, ?_, ?_⟩
  · rw [h.1]; decide
  · rw [h.2.1]; decide

/-! ## Clearing a condition -/

theorem FF_SPRING_ne_FF_DAMPER : FF_SPRING ≠ FF_DAMPER := by decide

/-- C3: `hid_lg3ff_clear_cond` zeroes exactly the fields owned by the effect
type and keeps every other field: each of the five spring fields becomes 0 if
the type is Spring and keeps its value otherwise, each of the three damper
fields becomes 0 if the type is Damper and keeps its value otherwise, and
`constant_force`, the autocenter fields and all padding always keep their
values.  In particular clearing Spring after setting a Spring condition gives
zero spring fields and the damper fields the axis had before. -/
theorem clear_cond_frame (a : hid_lg3ff_axis) (t : Nat) (c : ff_condition_effect) :
    ((hid_lg3ff_clear_cond a t).spring_deadzone_neg
        = if t = FF_SPRING then 0 else a.spring_deadzone_neg) ∧
    ((hid_lg3ff_clear_cond a t).spring_deadzone_pos
        = if t = FF_SPRING then 0 else a.spring_deadzone_pos) ∧
    ((hid_lg3ff_clear_cond a t).spring_coeff_neg
        = if t = FF_SPRING then 0 else a.spring_coeff_neg) ∧
    ((hid_lg3ff_clear_cond a t).spring_coeff_pos
        = if t = FF_SPRING then 0 else a.spring_coeff_pos) ∧
    ((hid_lg3ff_clear_cond a t).spring_saturation
        = if t = FF_SPRING then 0 else a.spring_saturation) ∧
    ((hid_lg3ff_clear_cond a t).damper_coeff_neg
        = if t = FF_DAMPER then 0 else a.damper_coeff_neg) ∧
    ((hid_lg3ff_clear_cond a t).damper_coeff_pos
        = if t = FF_DAMPER then 0 else a.damper_coeff_pos) ∧
    ((hid_lg3ff_clear_cond a t).damper_saturation
        = if t = FF_DAMPER then 0 else a.damper_saturation) ∧
    (hid_lg3ff_clear_cond a t).constant_force = a.constant_force ∧
    (hid_lg3ff_clear_cond a t)._padding0 = a._padding0 ∧
    (hid_lg3ff_clear_cond a t).autocenter_strength = a.autocenter_strength ∧
    (hid_lg3ff_clear_cond a t).autocenter_force = a.autocenter_force ∧
    (hid_lg3ff_clear_cond a t).autocenter_damping = a.autocenter_damping ∧
    (hid_lg3ff_clear_cond a t)._padding1 = a._padding1 ∧
    (hid_lg3ff_clear_cond a t)._padding2 = a._padding2 ∧
    (hid_lg3ff_clear_cond (hid_lg3ff_set_cond a FF_SPRING c) FF_SPRING).spring_deadzone_neg = 0 ∧
    (hid_lg3ff_clear_cond (hid_lg3ff_set_cond a FF_SPRING c) FF_SPRING).spring_deadzone_pos = 0 ∧
    (hid_lg3ff_clear_cond (hid_lg3ff_set_cond a FF_SPRING c) FF_SPRING).spring_coeff_neg = 0 ∧
    (hid_lg3ff_clear_cond (hid_lg3ff_set_cond a FF_SPRING c) FF_SPRING).spring_coeff_pos = 0 ∧
    (hid_lg3ff_clear_cond (hid_lg3ff_set_cond a FF_SPRING c) FF_SPRING).spring_saturation = 0 ∧
    (hid_lg3ff_clear_cond (hid_lg3ff_set_cond a FF_SPRING c) FF_SPRING).damper_coeff_neg
        = a.damper_coeff_neg ∧
    (hid_lg3ff_clear_cond (hid_lg3ff_set_cond a FF_SPRING c) FF_SPRING).damper_coeff_pos
        = a.damper_coeff_pos ∧
    (hid_lg3ff_clear_cond (hid_lg3ff_set_cond a FF_SPRING c) FF_SPRING).damper_saturation
        = a.damper_saturation := by
  have hne := FF_SPRING_ne_FF_DAMPER
  refine ⟨?_, ?_, ?_, ?_, ?_, ?_, ?_, ?_, ?_, ?_, ?_, ?_, ?_, ?_, ?_, ?_⟩
  iterate 15
    unfold hid_lg3ff_clear_cond
    by_cases h1 : t = FF_SPRING
    · subst h1; simp [hne]
    · by_cases h2 : t = FF_DAMPER
      · subst h2; simp [hne.symm]
      · simp [h1, h2]
  simp [hid_lg3ff_clear_cond, hid_lg3ff_set_cond]

/-! ## Transport bookkeeping -/

theorem hig_lg3ff_send_requests (dev : hid_device) (r : hid_lg3ff_report) :
    (hig_lg3ff_send dev r).requests = dev.requests ++ [(hig_lg3ff_send dev r).value] := by
  simp only [hig_lg3ff_send]

theorem hig_lg3ff_send_requests_length (dev : hid_device) (r : hid_lg3ff_report) :
    (hig_lg3ff_send dev r).requests.length = dev.requests.length + 1 := by
  simp [hig_lg3ff_send_requests]

/-! ## Autocenter -/

/-- C4: for every magnitude `m` in `[0, 65535]`, `hid_lg3ff_set_autocenter`
performs exactly one send, of the report whose two axes both have
`autocenter_strength = 127`, `autocenter_force = m >> 9 = floor(m / 512)` and
every other field zero, and whose trailing bytes are zero; the force lies in
`[0, 127]`, so the narrowing to `s8` keeps it non-negative; the request log
grows by exactly one entry. -/
theorem set_autocenter_report (dev : hid_device) (m : Nat) (hm : m ≤ 65535) :
    hid_lg3ff_set_autocenter dev m
      = hig_lg3ff_send dev
          { x := { constant_force := 0, _padding0 := 0, autocenter_strength := 127,
                   autocenter_force := ((m / 512 : Nat) : Int), autocenter_damping := 0,
                   spring_deadzone_neg := 0, spring_deadzone_pos := 0,
                   spring_coeff_neg := 0, spring_coeff_pos := 0, spring_saturation := 0,
                   _padding1 := fun _ => 0, damper_coeff_neg := 0, damper_coeff_pos := 0,
                   damper_saturation := 0, _padding2 := fun _ => 0 },
            y := { constant_force := 0, _padding0 := 0, autocenter_strength := 127,
                   autocenter_force := ((m / 512 : Nat) : Int), autocenter_damping := 0,
                   spring_deadzone_neg := 0, spring_deadzone_pos := 0,
                   spring_coeff_neg := 0, spring_coeff_pos := 0, spring_saturation := 0,
                   _padding1 := fun _ => 0, damper_coeff_neg := 0, damper_coeff_pos := 0,
                   damper_saturation := 0, _padding2 := fun _ => 0 },
            _padding := fun _ => 0 } ∧
    m >>> 9 = m / 512 ∧
    (0 ≤ ((m / 512 : Nat) : Int) ∧ ((m / 512 : Nat) : Int) ≤ 127) ∧
    (hid_lg3ff_set_autocenter dev m).requests
      = dev.requests ++ [(hid_lg3ff_set_autocenter dev m).value] ∧
    (hid_lg3ff_set_autocenter dev m).requests.length = dev.requests.length + 1 := by
  have hs : m >>> 9 = m / 512 := by rw [Nat.shiftRight_eq_div_pow]
  have hn : s8_of_int ((m >>> 9 : Nat) : Int) = ((m / 512 : Nat) : Int) := by
    rw [hs]; exact s8_of_int_eq_self _ (by omega) (by omega)
  refine ⟨?_, hs, ⟨by omega, by omega⟩, ?_, ?_⟩
  · simp only [hid_lg3ff_set_autocenter, hn, hid_lg3ff_report.zero, hid_lg3ff_axis.zero]
  · simp only [hid_lg3ff_set_autocenter]
    exact hig_lg3ff_send_requests _ _
  · simp only [hid_lg3ff_set_autocenter]
    exact hig_lg3ff_send_requests_length _ _

/-- C4, at the largest magnitude: `m = 65535` gives force 127 on both axes,
and one request on a device that had none. -/
theorem set_autocenter_report_witness :
    (65535 : Nat) ≤ 65535 ∧
    hid_lg3ff_set_autocenter sample_device 65535
      = hig_lg3ff_send sample_device
          { x := { hid_lg3ff_axis.zero with autocenter_strength := 127, autocenter_force := 127 },
            y := { hid_lg3ff_axis.zero with autocenter_strength := 127, autocenter_force := 127 },
            _padding := fun _ => 0 } ∧
    (hid_lg3ff_set_autocenter sample_device 65535).requests.length = 1 := by
  have h := set_autocenter_report sample_device 65535 (by decide)
  exact ⟨by decide, h.1, h.2.2.2.2⟩

/-! ## Command dispatcher -/

/-- C5: for every StartCombinedForce command whose force components `x` and
`y` lie in `[-32768, 32767]`, `hid_lg3ff_play` returns 0 and performs exactly
one send, of the report whose X axis has `constant_force = x`, whose Y axis
has `constant_force = y`, and whose every other field is zero. -/
theorem play_start_combined (dev : hid_device) (c : mlnx_effect_command)
    (hc : c.cmd = mlnx_commands.MLNX_START_COMBINED)
    (hx : -32768 ≤ c.u.simple_force.x ∧ c.u.simple_force.x ≤ 32767)
    (hy : -32768 ≤ c.u.simple_force.y ∧ c.u.simple_force.y ≤ 32767) :
    hid_lg3ff_play dev c
      = (0, hig_lg3ff_send dev
          { x := { constant_force := c.u.simple_force.x, _padding0 := 0,
                   autocenter_strength := 0, autocenter_force := 0, autocenter_damping := 0,
                   spring_deadzone_neg := 0, spring_deadzone_pos := 0,
                   spring_coeff_neg := 0, spring_coeff_pos := 0, spring_saturation := 0,
                   _padding1 := fun _ => 0, damper_coeff_neg := 0, damper_coeff_pos := 0,
                   damper_saturation := 0, _padding2 := fun _ => 0 },
            y := { constant_force := c.u.simple_force.y, _padding0 := 0,
                   autocenter_strength := 0, autocenter_force := 0, autocenter_damping := 0,
                   spring_deadzone_neg := 0, spring_deadzone_pos := 0,
                   spring_coeff_neg := 0, spring_coeff_pos := 0, spring_saturation := 0,
                   _padding1 := fun _ => 0, damper_coeff_neg := 0, damper_coeff_pos := 0,
                   damper_saturation := 0, _padding2 := fun _ => 0 },
            _padding := fun _ => 0 }) ∧
    (hid_lg3ff_play dev c).2.requests.length = dev.requests.length + 1 := by
  obtain ⟨cmd, u⟩ := c
  simp only at hc hx hy
  subst hc
  refine ⟨?_, ?_⟩
  · simp only [hid_lg3ff_play, lg3ff_cpu_to_sle16, s16_of_int_eq_self _ hx.1 hx.2,
      s16_of_int_eq_self _ hy.1 hy.2, hid_lg3ff_report.zero, hid_lg3ff_axis.zero]
  · simp only [hid_lg3ff_play]
    exact hig_lg3ff_send_requests_length _ _

/-- C5, at the sample command with force `(-300, 12345)`. -/
theorem play_start_combined_witness :
    (hid_lg3ff_play sample_device
        (sample_command mlnx_commands.MLNX_START_COMBINED FF_CONSTANT)).1 = 0 ∧
    (hid_lg3ff_play sample_device
        (sample_command mlnx_commands.MLNX_START_COMBINED FF_CONSTANT)).2.requests.length = 1 := by
  have h := play_start_combined sample_device
    (sample_command mlnx_commands.MLNX_START_COMBINED FF_CONSTANT) rfl
    (by decide) (by decide)
  exact ⟨by rw [h.1], h.2⟩

/-- C6: for every StartUncombinedEffect command whose effect type is Spring or
Damper, `hid_lg3ff_play` returns 0 and performs exactly one send, of the
report whose X axis is `hid_lg3ff_set_cond` of the all-zero axis with
`condition[0]`, whose Y axis is `hid_lg3ff_set_cond` of the all-zero axis with
`condition[1]`, and whose three trailing bytes are zero. -/
theorem play_start_uncomb (dev : hid_device) (c : mlnx_effect_command)
    (hc : c.cmd = mlnx_commands.MLNX_START_UNCOMB)
    (ht : c.u.uncomb.effect.type = FF_SPRING ∨ c.u.uncomb.effect.type = FF_DAMPER) :
    hid_lg3ff_play dev c
      = (0, hig_lg3ff_send dev
          { x := hid_lg3ff_set_cond hid_lg3ff_axis.zero c.u.uncomb.effect.type
                   (c.u.uncomb.effect.condition 0),
            y := hid_lg3ff_set_cond hid_lg3ff_axis.zero c.u.uncomb.effect.type
                   (c.u.uncomb.effect.condition 1),
            _padding := fun _ => 0 }) ∧
    (hid_lg3ff_play dev c).2.requests.length = dev.requests.length + 1 := by
  obtain ⟨cmd, u⟩ := c
  simp only at hc ht
  subst hc
  have e : hid_lg3ff_play dev ⟨mlnx_commands.MLNX_START_UNCOMB, u⟩
      = (0, hig_lg3ff_send dev
          { x := hid_lg3ff_set_cond hid_lg3ff_axis.zero u.uncomb.effect.type
                   (u.uncomb.effect.condition 0),
            y := hid_lg3ff_set_cond hid_lg3ff_axis.zero u.uncomb.effect.type
                   (u.uncomb.effect.condition 1),
            _padding := fun _ => 0 }) := by
    simp only [hid_lg3ff_play, hid_lg3ff_report.zero]
  refine ⟨e, ?_⟩
  rw [e]; exact hig_lg3ff_send_requests_length _ _

/-- C6, at a Spring effect: the X axis carries the sample condition
(`spring_coeff_neg = 10`), the Y axis the extreme one
(`spring_coeff_neg = -128`). -/
theorem play_start_uncomb_witness :
    (sample_command mlnx_commands.MLNX_START_UNCOMB FF_SPRING).u.uncomb.effect.type = FF_SPRING ∧
    hid_lg3ff_play sample_device (sample_command mlnx_commands.MLNX_START_UNCOMB FF_SPRING)
      = (0, hig_lg3ff_send sample_device
          { x := hid_lg3ff_set_cond hid_lg3ff_axis.zero FF_SPRING sample_condition,
            y := hid_lg3ff_set_cond hid_lg3ff_axis.zero FF_SPRING extreme_condition,
            _padding := fun _ => 0 }) ∧
    (hid_lg3ff_set_cond hid_lg3ff_axis.zero FF_SPRING sample_condition).spring_coeff_neg = 10 ∧
    (hid_lg3ff_set_cond hid_lg3ff_axis.zero FF_SPRING extreme_condition).spring_coeff_neg = -128 :=
  ⟨rfl,
   (play_start_uncomb sample_device
      (sample_command mlnx_commands.MLNX_START_UNCOMB FF_SPRING) rfl (Or.inl rfl)).1,
   by decide, by decide⟩

/-- C7, refuted as stated: a StartUncombinedEffect command whose effect type is
the constant-force code (neither Spring nor Damper) is not rejected;
`hid_lg3ff_play` returns 0, not `-EINVAL`, and one request is submitted. -/
theorem play_start_uncomb_unsupported_accepted :
    FF_CONSTANT ≠ FF_SPRING ∧ FF_CONSTANT ≠ FF_DAMPER ∧
    (hid_lg3ff_play sample_device
        (sample_command mlnx_commands.MLNX_START_UNCOMB FF_CONSTANT)).1 = 0 ∧
    (hid_lg3ff_play sample_device
        (sample_command mlnx_commands.MLNX_START_UNCOMB FF_CONSTANT)).1 ≠ -EINVAL ∧
    sample_device.requests.length = 0 ∧
    (hid_lg3ff_play sample_device
        (sample_command mlnx_commands.MLNX_START_UNCOMB FF_CONSTANT)).2.requests.length = 1 := by
  refine ⟨by decide, by decide, rfl, by decide, rfl, ?_⟩
  simp only [hid_lg3ff_play, sample_command]
  exact hig_lg3ff_send_requests_length _ _

/-- C7, amended: for every command whose effect type is neither Spring nor
Damper, an UploadUncombinedEffect command makes `hid_lg3ff_play` return
`-EINVAL` with the device untouched, whereas a StartUncombinedEffect or
StopUncombinedEffect command is not checked: `hid_lg3ff_play` returns 0 and
sends the all-zero report. -/
theorem play_uncomb_unsupported (dev : hid_device) (c : mlnx_effect_command)
    (h1 : c.u.uncomb.effect.type ≠ FF_SPRING) (h2 : c.u.uncomb.effect.type ≠ FF_DAMPER) :
    (c.cmd = mlnx_commands.MLNX_UPLOAD_UNCOMB → hid_lg3ff_play dev c = (-EINVAL, dev)) ∧
    (c.cmd = mlnx_commands.MLNX_START_UNCOMB ∨ c.cmd = mlnx_commands.MLNX_STOP_UNCOMB →
      hid_lg3ff_play dev c = (0, hig_lg3ff_send dev hid_lg3ff_report.zero)) := by
  obtain ⟨cmd, u⟩ := c
  simp only at h1 h2
  refine ⟨?_, ?_⟩
  · intro hc
    simp only at hc
    subst hc
    simp only [hid_lg3ff_play, h1, h2, or_self, if_false]
  · intro hc
    simp only at hc
    rcases hc with hc | hc <;> subst hc
    · simp only [hid_lg3ff_play, hid_lg3ff_set_cond, h1, h2, if_false, hid_lg3ff_report.zero]
    · simp only [hid_lg3ff_play, hid_lg3ff_clear_cond, h1, h2, if_false, hid_lg3ff_report.zero]

/-- C7 amended, at an upload of a constant-force effect: rejected, nothing
sent. -/
theorem play_uncomb_unsupported_witness :
    FF_CONSTANT ≠ FF_SPRING ∧ FF_CONSTANT ≠ FF_DAMPER ∧
    hid_lg3ff_play sample_device (sample_command mlnx_commands.MLNX_UPLOAD_UNCOMB FF_CONSTANT)
      = (-EINVAL, sample_device) ∧
    hid_lg3ff_play sample_device (sample_command mlnx_commands.MLNX_STOP_UNCOMB FF_CONSTANT)
      = (0, hig_lg3ff_send sample_device hid_lg3ff_report.zero) :=
  ⟨by decide, by decide,
   (play_uncomb_unsupported sample_device
      (sample_command mlnx_commands.MLNX_UPLOAD_UNCOMB FF_CONSTANT)
      (by decide) (by decide)).1 rfl,
   (play_uncomb_unsupported sample_device
      (sample_command mlnx_commands.MLNX_STOP_UNCOMB FF_CONSTANT)
      (by decide) (by decide)).2 (Or.inr rfl)⟩

/-- C8: for every UploadUncombinedEffect command, `hid_lg3ff_play` returns 0
if and only if the effect type is Spring or Damper and returns `-EINVAL` for
every other type; in both cases the device is left as it was, so nothing is
sent. -/
theorem play_upload_uncomb (dev : hid_device) (c : mlnx_effect_command)
    (hc : c.cmd = mlnx_commands.MLNX_UPLOAD_UNCOMB) :
    ((hid_lg3ff_play dev c).1 = 0 ↔
      (c.u.uncomb.effect.type = FF_SPRING ∨ c.u.uncomb.effect.type = FF_DAMPER)) ∧
    (¬ (c.u.uncomb.effect.type = FF_SPRING ∨ c.u.uncomb.effect.type = FF_DAMPER) →
      (hid_lg3ff_play dev c).1 = -EINVAL) ∧
    (hid_lg3ff_play dev c).2 = dev := by
  obtain ⟨cmd, u⟩ := c
  simp only at hc
  subst hc
  by_cases ht : u.uncomb.effect.type = FF_SPRING ∨ u.uncomb.effect.type = FF_DAMPER
  · simp only [hid_lg3ff_play, ht, if_true, true_iff, not_true_eq_false, false_implies,
      and_self]
  · simp only [hid_lg3ff_play, ht, if_false, iff_false, not_false_eq_true, true_implies,
      and_true]
    decide

/-- C8, at uploads of a Damper effect (accepted) on the sample device: result
0 and the device unchanged. -/
theorem play_upload_uncomb_witness :
    (hid_lg3ff_play sample_device
        (sample_command mlnx_commands.MLNX_UPLOAD_UNCOMB FF_DAMPER)).1 = 0 ∧
    (hid_lg3ff_play sample_device
        (sample_command mlnx_commands.MLNX_UPLOAD_UNCOMB FF_DAMPER)).2 = sample_device :=
  ⟨(play_upload_uncomb sample_device
      (sample_command mlnx_commands.MLNX_UPLOAD_UNCOMB FF_DAMPER) rfl).1.mpr (Or.inr rfl),
   (play_upload_uncomb sample_device
      (sample_command mlnx_commands.MLNX_UPLOAD_UNCOMB FF_DAMPER) rfl).2.2⟩

/-- C9: a command whose kind is none of StartCombined, StopCombined,
UploadUncombined, StartUncombined, StopUncombined makes `hid_lg3ff_play`
return `-EINVAL` and leave the device as it was; a command of kind
StartCombined, StopCombined, StartUncombined or StopUncombined makes it return
0 after exactly one send, the request log growing by one entry. -/
theorem play_command_kinds (dev : hid_device) (c : mlnx_effect_command) :
    ((c.cmd ≠ mlnx_commands.MLNX_START_COMBINED ∧ c.cmd ≠ mlnx_commands.MLNX_STOP_COMBINED ∧
        c.cmd ≠ mlnx_commands.MLNX_UPLOAD_UNCOMB ∧ c.cmd ≠ mlnx_commands.MLNX_START_UNCOMB ∧
        c.cmd ≠ mlnx_commands.MLNX_STOP_UNCOMB) →
      hid_lg3ff_play dev c = (-EINVAL, dev)) ∧
    ((c.cmd = mlnx_commands.MLNX_START_COMBINED ∨ c.cmd = mlnx_commands.MLNX_STOP_COMBINED ∨
        c.cmd = mlnx_commands.MLNX_START_UNCOMB ∨ c.cmd = mlnx_commands.MLNX_STOP_UNCOMB) →
      (hid_lg3ff_play dev c).1 = 0 ∧
      (∃ r, (hid_lg3ff_play dev c).2 = hig_lg3ff_send dev r) ∧
      (hid_lg3ff_play dev c).2.requests.length = dev.requests.length + 1) := by
  obtain ⟨cmd, u⟩ := c
  refine ⟨?_, ?_⟩
  · intro h
    simp only at h
    cases cmd with
    | MLNX_OTHER raw => simp only [hid_lg3ff_play]
    | _ => simp at h
  · intro h
    simp only at h
    rcases h with h | h | h | h <;> subst h <;> simp only [hid_lg3ff_play] <;>
      exact ⟨trivial, ⟨_, rfl⟩, hig_lg3ff_send_requests_length _ _⟩

/-- C9, at an unknown command kind and at a StopCombined command on the sample
device. -/
theorem play_command_kinds_witness :
    hid_lg3ff_play sample_device (sample_command (mlnx_commands.MLNX_OTHER 7) FF_SPRING)
      = (-EINVAL, sample_device) ∧
    (hid_lg3ff_play sample_device
        (sample_command mlnx_commands.MLNX_STOP_COMBINED FF_SPRING)).1 = 0 ∧
    (hid_lg3ff_play sample_device
        (sample_command mlnx_commands.MLNX_STOP_COMBINED FF_SPRING)).2.requests.length = 1 :=
  ⟨(play_command_kinds sample_device
      (sample_command (mlnx_commands.MLNX_OTHER 7) FF_SPRING)).1 (by decide),
   ((play_command_kinds sample_device
      (sample_command mlnx_commands.MLNX_STOP_COMBINED FF_SPRING)).2 (Or.inr (Or.inl rfl))).1,
   ((play_command_kinds sample_device
      (sample_command mlnx_commands.MLNX_STOP_COMBINED FF_SPRING)).2 (Or.inr (Or.inl rfl))).2.2⟩

/-! ## The store loop of `hig_lg3ff_send` -/

theorem store_loop_length (f : Nat → Int) (n : Nat) (v : List Int) :
    ((List.range n).foldl (fun v i => v.set i (f i)) v).length = v.length := by
  induction n with
  | zero => rfl
  | succ n ih => rw [List.range_succ, List.foldl_append]; simp [ih]

theorem store_loop_getElem? (f : Nat → Int) (n : Nat) (v : List Int) (j : Nat) :
    ((List.range n).foldl (fun v i => v.set i (f i)) v)[j]?
      = if j < n ∧ j < v.length then some (f j) else v[j]? := by
  induction n with
  | zero => simp
  | succ n ih =>
    rw [List.range_succ, List.foldl_append]
    simp only [List.foldl_cons, List.foldl_nil]
    rw [List.getElem?_set, store_loop_length, ih]
    by_cases h : n = j
    · subst h
      by_cases h2 : n < v.length
      · simp [h2]
      · simp [h2, List.getElem?_eq_none (Nat.le_of_not_lt h2)]
    · simp only [h, if_false]
      have hiff : (j < n + 1 ∧ j < v.length) ↔ (j < n ∧ j < v.length) := by omega
      simp only [hiff]

theorem hig_lg3ff_send_value_length (dev : hid_device) (r : hid_lg3ff_report) :
    (hig_lg3ff_send dev r).value.length = dev.value.length := by
  simp only [hig_lg3ff_send]
  exact store_loop_length _ _ _

theorem hig_lg3ff_send_value_getElem? (dev : hid_device) (r : hid_lg3ff_report) (j : Nat) :
    (hig_lg3ff_send dev r).value[j]?
      = if j < sizeof_hid_lg3ff_report ∧ j < dev.value.length
        then some ((r.bytes.getD j 0 : Nat) : Int) else dev.value[j]? := by
  simp only [hig_lg3ff_send]
  exact store_loop_getElem? (fun i => ((r.bytes.getD i 0 : Nat) : Int)) _ _ _

/-- Two devices with equally many value slots that agree beyond the report
hold the same slot contents after sending the same report. -/
theorem hig_lg3ff_send_value_congr (d1 d2 : hid_device) (r : hid_lg3ff_report)
    (hl : d1.value.length = d2.value.length)
    (ht : ∀ j, sizeof_hid_lg3ff_report ≤ j → d1.value[j]? = d2.value[j]?) :
    (hig_lg3ff_send d1 r).value = (hig_lg3ff_send d2 r).value := by
  apply List.ext_getElem?
  intro j
  rw [hig_lg3ff_send_value_getElem?, hig_lg3ff_send_value_getElem?, hl]
  by_cases hj : j < sizeof_hid_lg3ff_report
  · by_cases hj2 : j < d2.value.length
    · simp [hj, hj2]
    · simp only [hj2, and_false, if_false]
      rw [List.getElem?_eq_none (by omega), List.getElem?_eq_none (by omega)]
  · simp only [hj, false_and, if_false]
    exact ht j (by omega)

/-- Sending keeps the number of value slots and the slots beyond the report. -/
theorem hig_lg3ff_send_value_tail (dev : hid_device) (r : hid_lg3ff_report) :
    (hig_lg3ff_send dev r).value.length = dev.value.length ∧
    ∀ j, sizeof_hid_lg3ff_report ≤ j → (hig_lg3ff_send dev r).value[j]? = dev.value[j]? := by
  refine ⟨hig_lg3ff_send_value_length dev r, ?_⟩
  intro j hj
  rw [hig_lg3ff_send_value_getElem?]
  have hn : ¬ (j < sizeof_hid_lg3ff_report ∧ j < dev.value.length) := by omega
  simp only [hn, if_false]

theorem driver_call_run_value (dev : hid_device) (call : driver_call) :
    (call.run dev).value.length = dev.value.length ∧
    ∀ j, sizeof_hid_lg3ff_report ≤ j → (call.run dev).value[j]? = dev.value[j]? := by
  have hsend := hig_lg3ff_send_value_tail dev
  cases call with
  | set_autocenter m =>
    simp only [driver_call.run, hid_lg3ff_set_autocenter]
    exact hsend _
  | play c =>
    obtain ⟨cmd, u⟩ := c
    cases cmd with
    | MLNX_UPLOAD_UNCOMB =>
      simp only [driver_call.run, hid_lg3ff_play]
      split <;> exact ⟨rfl, fun _ _ => rfl⟩
    | MLNX_OTHER raw =>
      simp only [driver_call.run, hid_lg3ff_play]
      exact ⟨trivial, fun _ _ => trivial⟩
    | _ =>
      simp only [driver_call.run, hid_lg3ff_play]
      exact hsend _

theorem run_calls_value (calls : List driver_call) (dev : hid_device) :
    (run_calls dev calls).value.length = dev.value.length ∧
    ∀ j, sizeof_hid_lg3ff_report ≤ j → (run_calls dev calls).value[j]? = dev.value[j]? := by
  induction calls generalizing dev with
  | nil => exact ⟨rfl, fun _ _ => rfl⟩
  | cons call rest ih =>
    have h1 := driver_call_run_value dev call
    have h2 := ih (call.run dev)
    simp only [run_calls, List.foldl_cons] at h2 ⊢
    exact ⟨h2.1.trans h1.1, fun j hj => (h2.2 j hj).trans (h1.2 j hj)⟩

theorem hig_lg3ff_send_requests_getLast? (dev : hid_device) (r : hid_lg3ff_report) :
    (hig_lg3ff_send dev r).requests.getLast? = some (hig_lg3ff_send dev r).value := by
  rw [hig_lg3ff_send_requests]
  simp

/-- C10: every StopCombinedForce command makes `hid_lg3ff_play` return 0 and
send the all-zero report (so `constant_force` is 0 on both axes and all 63
bytes are 0), whatever the device went through before; a second
StopCombinedForce issued after any sequence of driver callbacks sends the same
report again, and the two submitted requests are identical. -/
theorem play_stop_combined (dev : hid_device) (c1 c2 : mlnx_effect_command)
    (calls : List driver_call)
    (h1 : c1.cmd = mlnx_commands.MLNX_STOP_COMBINED)
    (h2 : c2.cmd = mlnx_commands.MLNX_STOP_COMBINED) :
    hid_lg3ff_play dev c1 = (0, hig_lg3ff_send dev hid_lg3ff_report.zero) ∧
    hid_lg3ff_report.zero.x.constant_force = 0 ∧
    hid_lg3ff_report.zero.y.constant_force = 0 ∧
    hid_lg3ff_report.zero.bytes = List.replicate 63 0 ∧
    hid_lg3ff_play (run_calls (hid_lg3ff_play dev c1).2 calls) c2
      = (0, hig_lg3ff_send (run_calls (hid_lg3ff_play dev c1).2 calls) hid_lg3ff_report.zero) ∧
    (hid_lg3ff_play (run_calls (hid_lg3ff_play dev c1).2 calls) c2).2.requests.getLast?
      = (hid_lg3ff_play dev c1).2.requests.getLast? := by
  have stop : ∀ (d : hid_device) (c : mlnx_effect_command),
      c.cmd = mlnx_commands.MLNX_STOP_COMBINED →
      hid_lg3ff_play d c = (0, hig_lg3ff_send d hid_lg3ff_report.zero) := by
    intro d c hc
    obtain ⟨cmd, u⟩ := c
    simp only at hc
    subst hc
    simp only [hid_lg3ff_play, hid_lg3ff_report.zero, hid_lg3ff_axis.zero]
  have hz : hid_lg3ff_report.zero.bytes = List.replicate 63 0 := by decide
  have e1 := stop dev c1 h1
  have e2 := stop (run_calls (hid_lg3ff_play dev c1).2 calls) c2 h2
  refine ⟨e1, rfl, rfl, hz, e2, ?_⟩
  rw [e2, e1]
  simp only [hig_lg3ff_send_requests_getLast?]
  have hs := hig_lg3ff_send_value_tail dev hid_lg3ff_report.zero
  have hr := run_calls_value calls (hig_lg3ff_send dev hid_lg3ff_report.zero)
  exact congrArg some (hig_lg3ff_send_value_congr _ _ _ (hr.1.trans hs.1)
    (fun j hj => (hr.2 j hj).trans (hs.2 j hj)))

/-- C10, on the sample device with a StartCombinedForce command and an
autocenter change between the two stops. -/
theorem play_stop_combined_witness :
    hid_lg3ff_play sample_device (sample_command mlnx_commands.MLNX_STOP_COMBINED FF_SPRING)
      = (0, hig_lg3ff_send sample_device hid_lg3ff_report.zero) ∧
    (hid_lg3ff_play
        (run_calls
          (hid_lg3ff_play sample_device
            (sample_command mlnx_commands.MLNX_STOP_COMBINED FF_SPRING)).2
          [driver_call.play (sample_command mlnx_commands.MLNX_START_COMBINED FF_SPRING),
           driver_call.set_autocenter 65535])
        (sample_command mlnx_commands.MLNX_STOP_COMBINED FF_DAMPER)).2.requests.getLast?
      = (hid_lg3ff_play sample_device
          (sample_command mlnx_commands.MLNX_STOP_COMBINED FF_SPRING)).2.requests.getLast? := by
  have h := play_stop_combined sample_device
    (sample_command mlnx_commands.MLNX_STOP_COMBINED FF_SPRING)
    (sample_command mlnx_commands.MLNX_STOP_COMBINED FF_DAMPER)
    [driver_call.play (sample_command mlnx_commands.MLNX_START_COMBINED FF_SPRING),
     driver_call.set_autocenter 65535] rfl rfl
  exact ⟨h.1, h.2.2.2.2.2⟩

/-! ## The packed image and the wire format -/

theorem axis_bytes_length (a : hid_lg3ff_axis) : a.bytes.length = 30 := rfl

theorem report_bytes_length (r : hid_lg3ff_report) : r.bytes.length = 63 := rfl

theorem le16_bytes_lt (v : Int) : ∀ b ∈ le16_bytes v, b < 256 := by
  intro b hb
  simp only [le16_bytes, List.mem_cons, List.mem_singleton, List.not_mem_nil, or_false] at hb
  rcases hb with hb | hb <;> subst hb <;> omega

theorem s8_byte_lt (v : Int) : s8_byte v < 256 := by
  unfold s8_byte; omega

theorem u8_byte_lt (v : Nat) : u8_byte v < 256 := by
  unfold u8_byte; omega

theorem hid_lg3ff_axis.bytes_lt (a : hid_lg3ff_axis) : ∀ b ∈ a.bytes, b < 256 := by
  intro b hb
  simp only [hid_lg3ff_axis.bytes, List.mem_append, List.mem_cons, List.mem_singleton,
    List.not_mem_nil, or_false] at hb
  have h16 := le16_bytes_lt
  have h8 := s8_byte_lt
  have hu := u8_byte_lt
  aesop

theorem hig_lg3ff_send_value_take (dev : hid_device) (r : hid_lg3ff_report)
    (hlen : sizeof_hid_lg3ff_report ≤ dev.value.length) :
    (hig_lg3ff_send dev r).value.take sizeof_hid_lg3ff_report
      = r.bytes.map Int.ofNat := by
  have h63 : sizeof_hid_lg3ff_report = 63 := rfl
  have hb : r.bytes.length = 63 := report_bytes_length r
  apply List.ext_getElem?
  intro j
  rw [List.getElem?_take, List.getElem?_map]
  by_cases hj : j < sizeof_hid_lg3ff_report
  · have hj2 : j < dev.value.length := by omega
    have hj3 : j < r.bytes.length := by omega
    rw [if_pos hj, hig_lg3ff_send_value_getElem?, if_pos ⟨hj, hj2⟩,
      List.getElem?_eq_getElem hj3, List.getD_eq_getElem _ _ hj3]
    rfl
  · rw [if_neg hj, List.getElem?_eq_none (by omega)]
    rfl

theorem hig_lg3ff_send_value_drop (dev : hid_device) (r : hid_lg3ff_report) :
    (hig_lg3ff_send dev r).value.drop sizeof_hid_lg3ff_report
      = dev.value.drop sizeof_hid_lg3ff_report := by
  apply List.ext_getElem?
  intro j
  rw [List.getElem?_drop, List.getElem?_drop]
  exact (hig_lg3ff_send_value_tail dev r).2 _ (by omega)

/-- C11: the packed image of every report is exactly 63 bytes: each axis is
exactly 30 bytes, axis X occupies bytes 0..29, axis Y bytes 30..59 and the
three trailing bytes 60..62, every byte lies in 0..255; on a device whose
output report has at least 63 value slots `hig_lg3ff_send` stores exactly these
63 bytes, in order, one per slot, leaves any further slot alone and submits
the resulting slots. -/
theorem report_bytes_layout (dev : hid_device) (r : hid_lg3ff_report)
    (hlen : sizeof_hid_lg3ff_report ≤ dev.value.length) :
    sizeof_hid_lg3ff_axis = 30 ∧ sizeof_hid_lg3ff_report = 63 ∧
    r.x.bytes.length = 30 ∧ r.y.bytes.length = 30 ∧ r.bytes.length = 63 ∧
    r.bytes.take 30 = r.x.bytes ∧
    (r.bytes.drop 30).take 30 = r.y.bytes ∧
    r.bytes.drop 60
      = [u8_byte (r._padding 0), u8_byte (r._padding 1), u8_byte (r._padding 2)] ∧
    (∀ b ∈ r.bytes, b < 256) ∧
    (hig_lg3ff_send dev r).value.take 63 = r.bytes.map Int.ofNat ∧
    (hig_lg3ff_send dev r).value.drop 63 = dev.value.drop 63 ∧
    (hig_lg3ff_send dev r).requests = dev.requests ++ [(hig_lg3ff_send dev r).value] := by
  refine ⟨rfl, rfl, rfl, rfl, rfl, rfl, rfl, rfl, ?_, hig_lg3ff_send_value_take dev r hlen,
    hig_lg3ff_send_value_drop dev r, hig_lg3ff_send_requests dev r⟩
  intro b hb
  simp only [hid_lg3ff_report.bytes, List.mem_append, List.mem_cons, List.mem_singleton,
    List.not_mem_nil, or_false] at hb
  rcases hb with (hb | hb) | hb
  · exact hid_lg3ff_axis.bytes_lt r.x b hb
  · exact hid_lg3ff_axis.bytes_lt r.y b hb
  · rcases hb with hb | hb | hb <;> subst hb <;> exact u8_byte_lt _

theorem s16_of_le_bytes_le16 (v : Int) (h1 : -32768 ≤ v) (h2 : v ≤ 32767) :
    s16_of_le_bytes (v % 256).toNat ((v / 256) % 256).toNat = v := by
  unfold s16_of_le_bytes s16_of_int
  omega

theorem s8_of_byte_s8_byte (v : Int) (h1 : -128 ≤ v) (h2 : v ≤ 127) :
    s8_of_byte (s8_byte v) = v := by
  unfold s8_of_byte s8_byte s8_of_int
  omega

theorem u8_byte_eq_self (v : Nat) (h : v < 256) : u8_byte v = v := by
  unfold u8_byte; omega

theorem hid_lg3ff_axis.bytes_append_eq (a : hid_lg3ff_axis) (rest : List Nat) :
    a.bytes ++ rest =
      (a.constant_force % 256).toNat :: ((a.constant_force / 256) % 256).toNat ::
      u8_byte a._padding0 :: s8_byte a.autocenter_strength ::
      s8_byte a.autocenter_force :: s8_byte a.autocenter_damping ::
      (a.spring_deadzone_neg % 256).toNat :: ((a.spring_deadzone_neg / 256) % 256).toNat ::
      (a.spring_deadzone_pos % 256).toNat :: ((a.spring_deadzone_pos / 256) % 256).toNat ::
      s8_byte a.spring_coeff_neg :: s8_byte a.spring_coeff_pos ::
      (a.spring_saturation % 256).toNat :: ((a.spring_saturation / 256) % 256).toNat ::
      u8_byte (a._padding1 0) :: u8_byte (a._padding1 1) :: u8_byte (a._padding1 2) ::
      u8_byte (a._padding1 3) :: u8_byte (a._padding1 4) :: u8_byte (a._padding1 5) ::
      u8_byte (a._padding1 6) :: u8_byte (a._padding1 7) ::
      s8_byte a.damper_coeff_neg :: s8_byte a.damper_coeff_pos ::
      (a.damper_saturation % 256).toNat :: ((a.damper_saturation / 256) % 256).toNat ::
      u8_byte (a._padding2 0) :: u8_byte (a._padding2 1) :: u8_byte (a._padding2 2) ::
      u8_byte (a._padding2 3) :: rest := rfl

theorem axis_decode_bytes (a : hid_lg3ff_axis) (h : a.WF) (rest : List Nat) :
    hid_lg3ff_axis.decode (a.bytes ++ rest) = a := by
  obtain ⟨h1, h2, h3, h4, h5, h6, h7, h8, h9, h10, h11, h12, h13, h14, h15⟩ := h
  rw [hid_lg3ff_axis.bytes_append_eq]
  rcases a with ⟨cf, p0, as, af, ad, dn, dp, cn, cp, ss, p1, dcn, dcp, ds, p2⟩
  simp only at h1 h2 h3 h4 h5 h6 h7 h8 h9 h10 h11 h12 h13 h14 h15
  simp only [hid_lg3ff_axis.decode, List.getD_cons_zero, List.getD_cons_succ,
    s16_of_le_bytes_le16 _ h1.1 h1.2, u8_byte_eq_self _ h2, s8_of_byte_s8_byte _ h3.1 h3.2,
    s8_of_byte_s8_byte _ h4.1 h4.2, s8_of_byte_s8_byte _ h5.1 h5.2,
    s16_of_le_bytes_le16 _ h6.1 h6.2, s16_of_le_bytes_le16 _ h7.1 h7.2,
    s8_of_byte_s8_byte _ h8.1 h8.2, s8_of_byte_s8_byte _ h9.1 h9.2,
    s16_of_le_bytes_le16 _ h10.1 h10.2, s8_of_byte_s8_byte _ h12.1 h12.2,
    s8_of_byte_s8_byte _ h13.1 h13.2, s16_of_le_bytes_le16 _ h14.1 h14.2]
  congr 1
  · funext i
    fin_cases i <;> simp [List.getD_cons_succ, u8_byte_eq_self _ (h11 _)]
  · funext i
    fin_cases i <;> simp [List.getD_cons_succ, u8_byte_eq_self _ (h15 _)]

theorem hid_lg3ff_axis.laid_out_at_bytes (a : hid_lg3ff_axis) (pre rest : List Nat) :
    a.laid_out_at (pre ++ (a.bytes ++ rest)) pre.length := by
  have hget : ∀ k, (pre ++ (a.bytes ++ rest)).getD (pre.length + k) 0
      = (a.bytes ++ rest).getD k 0 := by
    intro k
    rw [List.getD_append_right _ _ _ _ (by omega), Nat.add_sub_cancel_left]
  unfold hid_lg3ff_axis.laid_out_at
  simp only [hget]
  simp only [hid_lg3ff_axis.bytes_append_eq, List.getD_cons_zero, List.getD_cons_succ,
    u16_pattern, u8_pattern, s8_byte]
  refine ⟨⟨?_, ?_⟩, trivial, trivial, trivial, ⟨?_, ?_⟩, ⟨?_, ?_⟩, trivial, trivial, ⟨?_, ?_⟩,
    trivial, trivial, ⟨?_, ?_⟩⟩ <;> omega

theorem report_decode_bytes (r : hid_lg3ff_report) (h : r.WF) :
    hid_lg3ff_report.decode r.bytes = r := by
  obtain ⟨hx, hy, hp⟩ := h
  have ex : hid_lg3ff_axis.decode r.bytes = r.x := by
    unfold hid_lg3ff_report.bytes
    rw [List.append_assoc]
    exact axis_decode_bytes r.x hx _
  have ey : hid_lg3ff_axis.decode (r.bytes.drop 30) = r.y := by
    unfold hid_lg3ff_report.bytes
    rw [List.append_assoc, List.drop_left' (axis_bytes_length r.x)]
    exact axis_decode_bytes r.y hy _
  have ep : (fun i : Fin 3 => r.bytes.getD (60 + i.val) 0) = r._padding := by
    funext i
    have hd : r.bytes.drop 60
        = [u8_byte (r._padding 0), u8_byte (r._padding 1), u8_byte (r._padding 2)] := rfl
    rw [List.getD_eq_getElem?_getD, ← List.getElem?_drop, hd]
    fin_cases i <;> simp [u8_byte_eq_self _ (hp _)]
  rcases r with ⟨x, y, p⟩
  simp only [hid_lg3ff_report.decode] at ex ey ep ⊢
  rw [ex, ey, ep]

/-- C11, on the sample device (63 slots) and the sample report: the 63 slots
are the 63 bytes, which begin `0x34, 0x12, 1, 127, 254, 3`. -/
theorem report_bytes_layout_witness :
    sizeof_hid_lg3ff_report ≤ sample_device.value.length ∧
    sample_report.bytes.length = 63 ∧
    (hig_lg3ff_send sample_device sample_report).value.take 63
      = sample_report.bytes.map Int.ofNat ∧
    sample_report.bytes.take 6 = [0x34, 0x12, 1, 127, 254, 3] := by
  have h := report_bytes_layout sample_device sample_report (by decide)
  exact ⟨by decide, h.2.2.2.2.1, h.2.2.2.2.2.2.2.2.2.1, by decide⟩

/-- C12: the packed image is little-endian and lossless.  For every report
whose fields lie in their C ranges, reading the 63 bytes back field by field
gives the report itself; in the image every signed 16-bit field has the
low-order byte of its 16-bit pattern at its offset (0, 6, 8, 12, 24 within the
axis) and the high-order byte next, and every signed 8-bit field has its
pattern at its offset (3, 4, 5, 10, 11, 22, 23), axis X starting at byte 0 and
axis Y at byte 30. -/
theorem report_bytes_roundtrip (r : hid_lg3ff_report) (h : r.WF) :
    hid_lg3ff_report.decode r.bytes = r ∧
    r.x.laid_out_at r.bytes 0 ∧
    r.y.laid_out_at r.bytes 30 := by
  refine ⟨report_decode_bytes r h, ?_, ?_⟩
  · have hx := hid_lg3ff_axis.laid_out_at_bytes r.x []
      (r.y.bytes ++ [u8_byte (r._padding 0), u8_byte (r._padding 1), u8_byte (r._padding 2)])
    rw [List.nil_append, ← List.append_assoc] at hx
    exact hx
  · have hy := hid_lg3ff_axis.laid_out_at_bytes r.y r.x.bytes
      [u8_byte (r._padding 0), u8_byte (r._padding 1), u8_byte (r._padding 2)]
    rw [← List.append_assoc, axis_bytes_length] at hy
    exact hy

/-- C12, on the sample report: `constant_force = 0x1234` on X gives byte 0 =
`0x34` and byte 1 = `0x12`, and the image decodes to the report. -/
theorem report_bytes_roundtrip_witness :
    sample_report.WF ∧
    hid_lg3ff_report.decode sample_report.bytes = sample_report ∧
    sample_report.bytes.getD 0 0 = 0x34 ∧
    sample_report.bytes.getD 1 0 = 0x12 := by
  have hwf : sample_report.WF := by decide
  have h := report_bytes_roundtrip sample_report hwf
  exact ⟨hwf, h.1, h.2.1.1.1.trans (by decide), h.2.1.1.2.trans (by decide)⟩

/-! ## Damper encoding and unsupported effect types -/

/-- C13: for every axis and every condition in its C ranges,
`hid_lg3ff_set_cond` with type Damper stores
`damper_coeff_neg = floor(left_coeff / 256)`,
`damper_coeff_pos = floor(right_coeff / 256)` and
`damper_saturation = (left_saturation + right_saturation) / 4`; the result
does not depend on the condition's center and deadband; every other field of
the axis, the five spring fields included, keeps its value.  Symmetrically,
type Spring keeps the three damper fields and every non-spring field. -/
theorem set_cond_damper (a : hid_lg3ff_axis) (c : ff_condition_effect) (h : c.WF) :
    (hid_lg3ff_set_cond a FF_DAMPER c).damper_coeff_neg = ⌊(c.left_coeff : ℚ) / 256⌋ ∧
    (hid_lg3ff_set_cond a FF_DAMPER c).damper_coeff_pos = ⌊(c.right_coeff : ℚ) / 256⌋ ∧
    (hid_lg3ff_set_cond a FF_DAMPER c).damper_saturation
      = (((c.left_saturation + c.right_saturation) / 4 : Nat) : Int) ∧
    (∀ (center : Int) (deadband : Nat),
      hid_lg3ff_set_cond a FF_DAMPER { c with center := center, deadband := deadband }
        = hid_lg3ff_set_cond a FF_DAMPER c) ∧
    ((hid_lg3ff_set_cond a FF_DAMPER c).constant_force = a.constant_force ∧
      (hid_lg3ff_set_cond a FF_DAMPER c)._padding0 = a._padding0 ∧
      (hid_lg3ff_set_cond a FF_DAMPER c).autocenter_strength = a.autocenter_strength ∧
      (hid_lg3ff_set_cond a FF_DAMPER c).autocenter_force = a.autocenter_force ∧
      (hid_lg3ff_set_cond a FF_DAMPER c).autocenter_damping = a.autocenter_damping ∧
      (hid_lg3ff_set_cond a FF_DAMPER c).spring_deadzone_neg = a.spring_deadzone_neg ∧
      (hid_lg3ff_set_cond a FF_DAMPER c).spring_deadzone_pos = a.spring_deadzone_pos ∧
      (hid_lg3ff_set_cond a FF_DAMPER c).spring_coeff_neg = a.spring_coeff_neg ∧
      (hid_lg3ff_set_cond a FF_DAMPER c).spring_coeff_pos = a.spring_coeff_pos ∧
      (hid_lg3ff_set_cond a FF_DAMPER c).spring_saturation = a.spring_saturation ∧
      (hid_lg3ff_set_cond a FF_DAMPER c)._padding1 = a._padding1 ∧
      (hid_lg3ff_set_cond a FF_DAMPER c)._padding2 = a._padding2) ∧
    ((hid_lg3ff_set_cond a FF_SPRING c).constant_force = a.constant_force ∧
      (hid_lg3ff_set_cond a FF_SPRING c)._padding0 = a._padding0 ∧
      (hid_lg3ff_set_cond a FF_SPRING c).autocenter_strength = a.autocenter_strength ∧
      (hid_lg3ff_set_cond a FF_SPRING c).autocenter_force = a.autocenter_force ∧
      (hid_lg3ff_set_cond a FF_SPRING c).autocenter_damping = a.autocenter_damping ∧
      (hid_lg3ff_set_cond a FF_SPRING c)._padding1 = a._padding1 ∧
      (hid_lg3ff_set_cond a FF_SPRING c).damper_coeff_neg = a.damper_coeff_neg ∧
      (hid_lg3ff_set_cond a FF_SPRING c).damper_coeff_pos = a.damper_coeff_pos ∧
      (hid_lg3ff_set_cond a FF_SPRING c).damper_saturation = a.damper_saturation ∧
      (hid_lg3ff_set_cond a FF_SPRING c)._padding2 = a._padding2) := by
  obtain ⟨hrs, hls, ⟨hr1, hr2⟩, ⟨hl1, hl2⟩, _, _⟩ := h
  have hne : FF_DAMPER ≠ FF_SPRING := FF_SPRING_ne_FF_DAMPER.symm
  refine ⟨?_, ?_, ?_, ?_, ?_, ?_⟩
  · rw [floor_div_256]
    simp only [hid_lg3ff_set_cond, hne, if_false, if_true]
    exact coeff_narrow _ hl1 hl2
  · rw [floor_div_256]
    simp only [hid_lg3ff_set_cond, hne, if_false, if_true]
    exact coeff_narrow _ hr1 hr2
  · simp only [hid_lg3ff_set_cond, hne, if_false, if_true]
    exact saturation_narrow _ _ hls hrs
  · intro center deadband
    simp only [hid_lg3ff_set_cond, hne, if_false, if_true]
  · simp only [hid_lg3ff_set_cond, hne, if_false, if_true, and_self]
  · simp only [hid_lg3ff_set_cond, if_true, and_self]

/-- C13, on the sample axis and the sample condition: the damper fields become
10, 12 and 300 while the spring deadzone stays at -900. -/
theorem set_cond_damper_witness :
    sample_condition.WF ∧
    (hid_lg3ff_set_cond sample_axis FF_DAMPER sample_condition).damper_coeff_neg = 10 ∧
    (hid_lg3ff_set_cond sample_axis FF_DAMPER sample_condition).damper_coeff_pos = 12 ∧
    (hid_lg3ff_set_cond sample_axis FF_DAMPER sample_condition).damper_saturation = 300 ∧
    (hid_lg3ff_set_cond sample_axis FF_DAMPER sample_condition).spring_deadzone_neg = -900 := by
  have hwf : sample_condition.WF := by decide
  have h := set_cond_damper sample_axis sample_condition hwf
  refine ⟨hwf, ?_, ?_, ?_, ?_⟩
  · rw [h.1, floor_div_256]; decide
  · rw [h.2.1, floor_div_256]; decide
  · rw [h.2.2.1]; decide
  · rw [h.2.2.2.2.1.2.2.2.2.2.1]; decide

/-- C14: for every effect type other than Spring and Damper, every axis and
every condition, `hid_lg3ff_set_cond` and `hid_lg3ff_clear_cond` return the
axis they were given. -/
theorem cond_unsupported_noop (a : hid_lg3ff_axis) (t : Nat) (c : ff_condition_effect)
    (h1 : t ≠ FF_SPRING) (h2 : t ≠ FF_DAMPER) :
    hid_lg3ff_set_cond a t c = a ∧ hid_lg3ff_clear_cond a t = a := by
  simp only [hid_lg3ff_set_cond, hid_lg3ff_clear_cond, h1, h2, if_false, and_self]

/-- C14, for the constant-force type on the sample axis. -/
theorem cond_unsupported_noop_witness :
    FF_CONSTANT ≠ FF_SPRING ∧ FF_CONSTANT ≠ FF_DAMPER ∧
    hid_lg3ff_set_cond sample_axis FF_CONSTANT extreme_condition = sample_axis ∧
    hid_lg3ff_clear_cond sample_axis FF_CONSTANT = sample_axis :=
  ⟨by decide, by decide,
   cond_unsupported_noop sample_axis FF_CONSTANT extreme_condition (by decide) (by decide)⟩

/-! ## Reserved bytes -/

theorem hid_lg3ff_report.bytes_reserved (r : hid_lg3ff_report) (h : r.reserved_zero) :
    ∀ j ∈ reserved_offsets, r.bytes.getD j 0 = 0 := by
  obtain ⟨⟨hx0, hxd, hx1, hx2⟩, ⟨hy0, hyd, hy1, hy2⟩, hp⟩ := h
  have hb : r.bytes = r.x.bytes ++ (r.y.bytes ++
      [u8_byte (r._padding 0), u8_byte (r._padding 1), u8_byte (r._padding 2)]) := by
    unfold hid_lg3ff_report.bytes
    rw [List.append_assoc]
  rw [hb, hid_lg3ff_axis.bytes_append_eq, hid_lg3ff_axis.bytes_append_eq]
  simp only [hx0, hxd, hx1, hx2, hy0, hyd, hy1, hy2, hp]
  intro j hj
  simp only [reserved_offsets, List.mem_cons, List.mem_singleton, List.not_mem_nil,
    or_false] at hj
  rcases hj with hj | hj | hj | hj | hj | hj | hj | hj | hj | hj | hj | hj | hj | hj | hj | hj |
    hj | hj | hj | hj | hj | hj | hj | hj | hj | hj | hj | hj | hj | hj | hj <;>
  subst hj <;> simp only [List.getD_cons_zero, List.getD_cons_succ] <;> rfl

theorem hig_lg3ff_send_value_reserved (dev : hid_device) (r : hid_lg3ff_report)
    (hlen : sizeof_hid_lg3ff_report ≤ dev.value.length) (h : r.reserved_zero) :
    ∀ j ∈ reserved_offsets, (hig_lg3ff_send dev r).value[j]? = some 0 := by
  intro j hj
  have hlt : j < sizeof_hid_lg3ff_report := by
    have h63 : sizeof_hid_lg3ff_report = 63 := rfl
    rw [h63]
    revert j
    decide
  rw [hig_lg3ff_send_value_getElem?, if_pos ⟨hlt, by omega⟩,
    hid_lg3ff_report.bytes_reserved r h j hj]
  rfl

theorem hid_lg3ff_axis.zero_reserved : hid_lg3ff_axis.zero.reserved_zero :=
  ⟨rfl, rfl, fun _ => rfl, fun _ => rfl⟩

theorem hid_lg3ff_set_cond_reserved (a : hid_lg3ff_axis) (t : Nat) (c : ff_condition_effect)
    (h : a.reserved_zero) : (hid_lg3ff_set_cond a t c).reserved_zero := by
  unfold hid_lg3ff_set_cond
  split
  · exact h
  · split <;> exact h

theorem hid_lg3ff_clear_cond_reserved (a : hid_lg3ff_axis) (t : Nat)
    (h : a.reserved_zero) : (hid_lg3ff_clear_cond a t).reserved_zero := by
  unfold hid_lg3ff_clear_cond
  split
  · exact h
  · split <;> exact h

/-- C15: on a device whose output report has at least 63 value slots, every
call of `hid_lg3ff_play` either delivers nothing (the device is left as it
was) or returns 0 after sending a report in which `_padding0`,
`_padding1[0..7]`, `_padding2[0..3]` and `autocenter_damping` of both axes and
the three trailing bytes are zero, so that the submitted slots are 0 at every
reserved offset; every call of `hid_lg3ff_set_autocenter` sends such a
report. -/
theorem delivered_reserved_zero (dev : hid_device)
    (hlen : sizeof_hid_lg3ff_report ≤ dev.value.length) :
    (∀ c : mlnx_effect_command,
      (hid_lg3ff_play dev c).2 = dev ∨
      ∃ r, hid_lg3ff_play dev c = (0, hig_lg3ff_send dev r) ∧ r.reserved_zero ∧
        ∀ j ∈ reserved_offsets, (hid_lg3ff_play dev c).2.value[j]? = some 0) ∧
    (∀ m : Nat,
      ∃ r, hid_lg3ff_set_autocenter dev m = hig_lg3ff_send dev r ∧ r.reserved_zero ∧
        ∀ j ∈ reserved_offsets, (hid_lg3ff_set_autocenter dev m).value[j]? = some 0) := by
  have hz := hid_lg3ff_axis.zero_reserved
  have key : ∀ (res : Int × hid_device) (r : hid_lg3ff_report),
      res = (0, hig_lg3ff_send dev r) → r.reserved_zero →
      (res.2 = dev ∨ ∃ r, res = (0, hig_lg3ff_send dev r) ∧ r.reserved_zero ∧
        ∀ j ∈ reserved_offsets, res.2.value[j]? = some 0) := by
    intro res r hres hr
    subst hres
    exact Or.inr ⟨r, rfl, hr, hig_lg3ff_send_value_reserved dev r hlen hr⟩
  refine ⟨?_, ?_⟩
  · intro c
    obtain ⟨cmd, u⟩ := c
    cases cmd with
    | MLNX_START_COMBINED =>
      refine key _ _ rfl ?_
      exact ⟨hz, hz, fun _ => rfl⟩
    | MLNX_STOP_COMBINED =>
      refine key _ _ rfl ?_
      exact ⟨hz, hz, fun _ => rfl⟩
    | MLNX_START_UNCOMB =>
      refine key _ _ rfl ?_
      exact ⟨hid_lg3ff_set_cond_reserved _ _ _ hz, hid_lg3ff_set_cond_reserved _ _ _ hz,
        fun _ => rfl⟩
    | MLNX_STOP_UNCOMB =>
      refine key _ _ rfl ?_
      exact ⟨hid_lg3ff_clear_cond_reserved _ _ hz, hid_lg3ff_clear_cond_reserved _ _ hz,
        fun _ => rfl⟩
    | MLNX_UPLOAD_UNCOMB =>
      left
      simp only [hid_lg3ff_play]
      split <;> rfl
    | MLNX_OTHER raw =>
      left
      simp only [hid_lg3ff_play]
  · intro m
    have hr : ∀ r : hid_lg3ff_report, r.reserved_zero →
        ∃ r', hig_lg3ff_send dev r = hig_lg3ff_send dev r' ∧ r'.reserved_zero ∧
          ∀ j ∈ reserved_offsets, (hig_lg3ff_send dev r).value[j]? = some 0 :=
      fun r h => ⟨r, rfl, h, hig_lg3ff_send_value_reserved dev r hlen h⟩
    simp only [hid_lg3ff_set_autocenter]
    exact hr _ ⟨hz, hz, fun _ => rfl⟩

/-- C15, on the sample device: after an autocenter change the slots 5
(`autocenter_damping` of X) and 62 (last trailing byte) are 0, and after
starting a Spring effect slot 35 (`autocenter_damping` of Y) is 0. -/
theorem delivered_reserved_zero_witness :
    sizeof_hid_lg3ff_report ≤ sample_device.value.length ∧
    (hid_lg3ff_set_autocenter sample_device 65535).value[5]? = some 0 ∧
    (hid_lg3ff_set_autocenter sample_device 65535).value[62]? = some 0 ∧
    (hid_lg3ff_play sample_device
      (sample_command mlnx_commands.MLNX_START_UNCOMB FF_SPRING)).2.value[35]? = some 0 := by
  have h := delivered_reserved_zero sample_device (by decide)
  obtain ⟨r, _, _, hv⟩ := h.2 65535
  refine ⟨by decide, hv 5 (by decide), hv 62 (by decide), ?_⟩
  rcases h.1 (sample_command mlnx_commands.MLNX_START_UNCOMB FF_SPRING) with
    h0 | ⟨r, _, _, hv2⟩
  · exfalso
    have hl : (hid_lg3ff_play sample_device
        (sample_command mlnx_commands.MLNX_START_UNCOMB FF_SPRING)).2.requests.length
          = sample_device.requests.length + 1 := by
      simp only [hid_lg3ff_play, sample_command]
      exact hig_lg3ff_send_requests_length _ _
    rw [h0] at hl
    omega
  · exact hv2 35 (by decide)

/-! ## Truncation of the combined force -/

theorem s16_of_int_range (v : Int) : -32768 ≤ s16_of_int v ∧ s16_of_int v ≤ 32767 := by
  unfold s16_of_int; omega

theorem s16_of_int_congr (v : Int) : (65536 : Int) ∣ (s16_of_int v - v) := by
  unfold s16_of_int; omega

theorem s16_of_int_unique (v w : Int) (h1 : -32768 ≤ w) (h2 : w ≤ 32767)
    (h3 : (65536 : Int) ∣ (w - v)) : w = s16_of_int v := by
  unfold s16_of_int; omega

/-- C16: StartCombinedForce applies no clamp, only truncation to 16 bits.  For
every StartCombinedForce command `hid_lg3ff_play` returns 0 and sends the
report whose `constant_force` on X and Y is the narrowing of the supplied
component, every other field being zero; for every integer `v` the narrowing
is the unique value in `[-32768, 32767]` congruent to `v` modulo `2^16`, and
it equals `v` if and only if `-32768 <= v <= 32767`. -/
theorem play_start_combined_truncates (dev : hid_device) (c : mlnx_effect_command)
    (hc : c.cmd = mlnx_commands.MLNX_START_COMBINED) :
    hid_lg3ff_play dev c
      = (0, hig_lg3ff_send dev
          { x := { hid_lg3ff_axis.zero with
                   constant_force := s16_of_int c.u.simple_force.x },
            y := { hid_lg3ff_axis.zero with
                   constant_force := s16_of_int c.u.simple_force.y },
            _padding := fun _ => 0 }) ∧
    (∀ v : Int,
      (-32768 ≤ s16_of_int v ∧ s16_of_int v ≤ 32767) ∧
      (65536 : Int) ∣ (s16_of_int v - v) ∧
      (∀ w : Int, -32768 ≤ w → w ≤ 32767 → (65536 : Int) ∣ (w - v) → w = s16_of_int v) ∧
      (s16_of_int v = v ↔ (-32768 ≤ v ∧ v ≤ 32767))) := by
  obtain ⟨cmd, u⟩ := c
  simp only at hc
  subst hc
  refine ⟨?_, ?_⟩
  · simp only [hid_lg3ff_play, lg3ff_cpu_to_sle16, hid_lg3ff_report.zero, hid_lg3ff_axis.zero]
  · intro v
    refine ⟨s16_of_int_range v, s16_of_int_congr v,
      fun w h1 h2 h3 => s16_of_int_unique v w h1 h2 h3, ?_⟩
    unfold s16_of_int
    omega

/-- C16, at the force `(32768, 40000)`: the report carries -32768 on X and
-25536 on Y. -/
theorem play_start_combined_truncates_witness :
    overflow_command.cmd = mlnx_commands.MLNX_START_COMBINED ∧
    overflow_command.u.simple_force.x = 32768 ∧
    overflow_command.u.simple_force.y = 40000 ∧
    hid_lg3ff_play sample_device overflow_command
      = (0, hig_lg3ff_send sample_device
          { x := { hid_lg3ff_axis.zero with constant_force := -32768 },
            y := { hid_lg3ff_axis.zero with constant_force := -25536 },
            _padding := fun _ => 0 }) :=
  ⟨rfl, rfl, rfl, (play_start_combined_truncates sample_device overflow_command rfl).1⟩

/-! ## Stopping a condition effect -/

theorem hid_lg3ff_clear_cond_zero (t : Nat) :
    hid_lg3ff_clear_cond hid_lg3ff_axis.zero t = hid_lg3ff_axis.zero := by
  unfold hid_lg3ff_clear_cond
  split
  · rfl
  · split <;> rfl

/-- C17: for every StopUncombinedEffect command, whatever its effect type and
condition parameters, `hid_lg3ff_play` returns 0 and performs exactly one
send, of the all-zero report (63 zero bytes); this is the result of every
StopCombinedForce command on the same device. -/
theorem play_stop_uncomb (dev : hid_device) (c : mlnx_effect_command)
    (hc : c.cmd = mlnx_commands.MLNX_STOP_UNCOMB) :
    hid_lg3ff_play dev c = (0, hig_lg3ff_send dev hid_lg3ff_report.zero) ∧
    hid_lg3ff_report.zero.bytes = List.replicate 63 0 ∧
    (hid_lg3ff_play dev c).2.requests.length = dev.requests.length + 1 ∧
    (∀ c2 : mlnx_effect_command, c2.cmd = mlnx_commands.MLNX_STOP_COMBINED →
      hid_lg3ff_play dev c2 = hid_lg3ff_play dev c) := by
  obtain ⟨cmd, u⟩ := c
  simp only at hc
  subst hc
  have e : hid_lg3ff_play dev ⟨mlnx_commands.MLNX_STOP_UNCOMB, u⟩
      = (0, hig_lg3ff_send dev hid_lg3ff_report.zero) := by
    simp only [hid_lg3ff_play, hid_lg3ff_report.zero, hid_lg3ff_clear_cond_zero]
  refine ⟨e, by decide, ?_, ?_⟩
  · rw [e]; exact hig_lg3ff_send_requests_length _ _
  · intro c2 h2
    obtain ⟨cmd2, u2⟩ := c2
    simp only at h2
    subst h2
    rw [e]
    simp only [hid_lg3ff_play, hid_lg3ff_report.zero, hid_lg3ff_axis.zero]

/-- C17, for a Spring effect and for a constant-force effect carrying the
sample conditions. -/
theorem play_stop_uncomb_witness :
    hid_lg3ff_play sample_device (sample_command mlnx_commands.MLNX_STOP_UNCOMB FF_SPRING)
      = (0, hig_lg3ff_send sample_device hid_lg3ff_report.zero) ∧
    hid_lg3ff_play sample_device (sample_command mlnx_commands.MLNX_STOP_UNCOMB FF_CONSTANT)
      = (0, hig_lg3ff_send sample_device hid_lg3ff_report.zero) :=
  ⟨(play_stop_uncomb sample_device
      (sample_command mlnx_commands.MLNX_STOP_UNCOMB FF_SPRING) rfl).1,
   (play_stop_uncomb sample_device
      (sample_command mlnx_commands.MLNX_STOP_UNCOMB FF_CONSTANT) rfl).1⟩

/-! ## Wrap-around of the spring deadzone -/

/-- C18: for every axis and every Spring condition in its C ranges, the stored
`spring_deadzone_neg` and `spring_deadzone_pos` are the exact integers
`center - deadband/2` and `center + deadband/2` (`deadband/2` rounded down)
reduced modulo `2^16` into `[-32768, 32767]`.  When both exact integers lie in
that range they are stored unchanged, so
`spring_deadzone_neg <= center <= spring_deadzone_pos` and
`spring_deadzone_pos - spring_deadzone_neg = 2 * (deadband/2)`. -/
theorem set_cond_spring_deadzone_wrap (a : hid_lg3ff_axis) (c : ff_condition_effect)
    (h : c.WF) :
    ((-32768 ≤ c.center - ((c.deadband / 2 : Nat) : Int) ∧
        c.center + ((c.deadband / 2 : Nat) : Int) ≤ 32767) →
      (hid_lg3ff_set_cond a FF_SPRING c).spring_deadzone_neg
        = c.center - ((c.deadband / 2 : Nat) : Int) ∧
      (hid_lg3ff_set_cond a FF_SPRING c).spring_deadzone_pos
        = c.center + ((c.deadband / 2 : Nat) : Int) ∧
      (hid_lg3ff_set_cond a FF_SPRING c).spring_deadzone_neg ≤ c.center ∧
      c.center ≤ (hid_lg3ff_set_cond a FF_SPRING c).spring_deadzone_pos ∧
      (hid_lg3ff_set_cond a FF_SPRING c).spring_deadzone_pos
        - (hid_lg3ff_set_cond a FF_SPRING c).spring_deadzone_neg
        = 2 * ((c.deadband / 2 : Nat) : Int)) ∧
    ((-32768 ≤ (hid_lg3ff_set_cond a FF_SPRING c).spring_deadzone_neg ∧
        (hid_lg3ff_set_cond a FF_SPRING c).spring_deadzone_neg ≤ 32767) ∧
      (65536 : Int) ∣ ((hid_lg3ff_set_cond a FF_SPRING c).spring_deadzone_neg
        - (c.center - ((c.deadband / 2 : Nat) : Int)))) ∧
    ((-32768 ≤ (hid_lg3ff_set_cond a FF_SPRING c).spring_deadzone_pos ∧
        (hid_lg3ff_set_cond a FF_SPRING c).spring_deadzone_pos ≤ 32767) ∧
      (65536 : Int) ∣ ((hid_lg3ff_set_cond a FF_SPRING c).spring_deadzone_pos
        - (c.center + ((c.deadband / 2 : Nat) : Int)))) := by
  obtain ⟨_, _, _, _, _, hc1, hc2⟩ := h
  have e1 : (hid_lg3ff_set_cond a FF_SPRING c).spring_deadzone_neg
      = s16_of_int (c.center - ((c.deadband / 2 : Nat) : Int)) := by
    simp only [hid_lg3ff_set_cond, if_true, lg3ff_cpu_to_sle16]
  have e2 : (hid_lg3ff_set_cond a FF_SPRING c).spring_deadzone_pos
      = s16_of_int (c.center + ((c.deadband / 2 : Nat) : Int)) := by
    simp only [hid_lg3ff_set_cond, if_true, lg3ff_cpu_to_sle16]
  rw [e1, e2]
  refine ⟨?_, ⟨s16_of_int_range _, s16_of_int_congr _⟩, ⟨s16_of_int_range _, s16_of_int_congr _⟩⟩
  rintro ⟨hlo, hhi⟩
  rw [s16_of_int_eq_self _ hlo (by omega), s16_of_int_eq_self _ (by omega) hhi]
  refine ⟨rfl, rfl, ?_, ?_, ?_⟩ <;> omega

/-- C18, at the sample condition (900 and 1100, 200 apart) and at the two ends
of the center range: `center = 32767`, `deadband = 65535` stores
`spring_deadzone_pos = -2`; `center = -32768`, `deadband = 65535` stores
`spring_deadzone_neg = 1`. -/
theorem set_cond_spring_deadzone_wrap_witness :
    sample_condition.WF ∧ extreme_condition.WF ∧ low_extreme_condition.WF ∧
    (hid_lg3ff_set_cond hid_lg3ff_axis.zero FF_SPRING sample_condition).spring_deadzone_pos
      - (hid_lg3ff_set_cond hid_lg3ff_axis.zero FF_SPRING sample_condition).spring_deadzone_neg
      = 200 ∧
    (hid_lg3ff_set_cond hid_lg3ff_axis.zero FF_SPRING extreme_condition).spring_deadzone_pos
      = -2 ∧
    (hid_lg3ff_set_cond hid_lg3ff_axis.zero FF_SPRING low_extreme_condition).spring_deadzone_neg
      = 1 := by
  have hwf : sample_condition.WF := by decide
  have h := (set_cond_spring_deadzone_wrap hid_lg3ff_axis.zero sample_condition hwf).1
    ⟨by decide, by decide⟩
  refine ⟨hwf, by decide, by decide, ?_, by decide, by decide⟩
  rw [h.2.2.2.2]; decide

/-! ## Independence of the spring and damper encodings -/

/-- C19: on one axis the Spring and Damper encodings are independent.  Setting
Spring then Damper equals setting Damper then Spring; clearing Spring commutes
with setting Damper and with clearing Damper; and within one effect type the
last write wins: a second `hid_lg3ff_set_cond` of the same type overrides the
first, and `hid_lg3ff_clear_cond` after `hid_lg3ff_set_cond` of the same type
equals `hid_lg3ff_clear_cond` alone. -/
theorem cond_independent (a : hid_lg3ff_axis) (c1 c2 c : ff_condition_effect) (t : Nat) :
    hid_lg3ff_set_cond (hid_lg3ff_set_cond a FF_SPRING c1) FF_DAMPER c2
      = hid_lg3ff_set_cond (hid_lg3ff_set_cond a FF_DAMPER c2) FF_SPRING c1 ∧
    hid_lg3ff_clear_cond (hid_lg3ff_set_cond a FF_DAMPER c2) FF_SPRING
      = hid_lg3ff_set_cond (hid_lg3ff_clear_cond a FF_SPRING) FF_DAMPER c2 ∧
    hid_lg3ff_clear_cond (hid_lg3ff_clear_cond a FF_DAMPER) FF_SPRING
      = hid_lg3ff_clear_cond (hid_lg3ff_clear_cond a FF_SPRING) FF_DAMPER ∧
    hid_lg3ff_set_cond (hid_lg3ff_set_cond a t c1) t c2 = hid_lg3ff_set_cond a t c2 ∧
    hid_lg3ff_clear_cond (hid_lg3ff_set_cond a t c) t = hid_lg3ff_clear_cond a t := by
  have hne : FF_DAMPER ≠ FF_SPRING := FF_SPRING_ne_FF_DAMPER.symm
  refine ⟨?_, ?_, ?_, ?_, ?_⟩
  · simp only [hid_lg3ff_set_cond, hne, if_false, if_true]
  · simp only [hid_lg3ff_set_cond, hid_lg3ff_clear_cond, hne, if_false, if_true]
  · simp only [hid_lg3ff_clear_cond, hne, if_false, if_true]
  · by_cases h1 : t = FF_SPRING
    · subst h1
      simp only [hid_lg3ff_set_cond, if_true]
    · by_cases h2 : t = FF_DAMPER
      · subst h2
        simp only [hid_lg3ff_set_cond, hne, if_false, if_true]
      · simp only [hid_lg3ff_set_cond, h1, h2, if_false]
  · by_cases h1 : t = FF_SPRING
    · subst h1
      simp only [hid_lg3ff_set_cond, hid_lg3ff_clear_cond, if_true]
    · by_cases h2 : t = FF_DAMPER
      · subst h2
        simp only [hid_lg3ff_set_cond, hid_lg3ff_clear_cond, hne, if_false, if_true]
      · simp only [hid_lg3ff_set_cond, hid_lg3ff_clear_cond, h1, h2, if_false]

end Lg3ff
